import Mathlib

/-!
Verification of the WordNet Aura loader (`src/bin/auraLoader.py`).

The development shallowly embeds the mapping-to-Cypher compiler of the
loader.  Pure builder functions of the source are translated to Lean
functions on the same data; the effect of the generated Cypher on the
graph database is modelled by an explicit graph-state semantics (the
database itself is an external collaborator of the program, so its
`MERGE`/`MATCH`/`SET` behaviour is modelled from the spec's contracts:
merge is create-if-absent keyed on the pattern, match is lookup,
set is update-in-place).  String functions of Cypher and Python that the
generated statements rely on (`trim`, `replace`, `toInteger`, `toLower`,
`str.strip`) are modelled by executable character-list functions so that
every definition evaluates inside the kernel.
-/

namespace WordnetAura

/-! ## String primitives -/

/-- The byte-order-mark character `U+FEFF` that the loader strips everywhere. -/
def bomChar : Char := '\uFEFF'

/-- Whitespace test used by both Cypher `trim` and Python `str.strip` in this
model (space, tab, CR, LF). -/
def isWsChar (c : Char) : Bool := c.isWhitespace

/-- Remove leading and trailing whitespace from a character list. -/
def trimChars (l : List Char) : List Char :=
  ((l.dropWhile isWsChar).reverse.dropWhile isWsChar).reverse

/-- Model of Cypher `trim(s)`: strip surrounding whitespace. -/
def cyTrim (s : String) : String := String.mk (trimChars s.toList)

/-- Model of Cypher `replace(s, BOM, '')`: the pattern is a single
character, so replacing it by the empty string removes every occurrence. -/
def cyStripBom (s : String) : String := String.mk (s.toList.filter (· ≠ bomChar))

/-- Model of Cypher `toLower(s)`. -/
def cyToLower (s : String) : String := String.mk (s.toList.map Char.toLower)

/-- Parse a non-empty run of decimal digits. -/
def parseDigits : List Char → Option Nat
  | [] => none
  | l => if l.all Char.isDigit then some (l.foldl (fun n c => 10 * n + (c.toNat - 48)) 0) else none

/-- Model of Cypher `toInteger(s)` on strings: an optional sign followed by
digits parses to an integer, anything else (including the empty string)
yields `null` (`none`). -/
def cyToInteger (s : String) : Option Int :=
  match s.toList with
  | '-' :: rest => (parseDigits rest).map (fun n => -(n : Int))
  | l => (parseDigits l).map (fun n => (n : Int))

/-- A decimal-literal test: optional sign, digits, optional fractional part. -/
def isFloatLit (s : String) : Bool :=
  let l := match s.toList with
    | '-' :: rest => rest
    | l => l
  match l.splitOn '.' with
  | [a] => a ≠ [] && a.all Char.isDigit
  | [a, b] => a ≠ [] && b ≠ [] && a.all Char.isDigit && b.all Char.isDigit
  | _ => false

/-! ## Values

Cypher values that the generated statements produce: `null`, integers,
strings, booleans and floats.  Floats never need arithmetic in this
development, so they are carried by their literal representation. -/

inductive Val where
  | vnull : Val
  | vint (n : Int) : Val
  | vstr (s : String) : Val
  | vbool (b : Bool) : Val
  | vfloat (lit : String) : Val
deriving DecidableEq, Repr

/-- Model of Cypher `toFloat(s)` on strings: numeric literals are kept as
`vfloat`, anything else (including the empty string) yields `null`. -/
def cyToFloat (s : String) : Val :=
  if isFloatLit s then Val.vfloat s else Val.vnull

/-! ## FieldSpec and the compiled value expression (`type_cast` / `nullable_cast`)

The function `type_cast` (auraLoader.py:115) builds, in order:
`replace(expr, BOM, '')` → `trim(...)` → `CASE WHEN ... = '\N' THEN '' ELSE ... END`
→ optional `toLower` → optional `toInteger`/`toFloat`.
The function `nullable_cast` (auraLoader.py:131) wraps it in
`CASE WHEN expr IS NULL OR expr = '' OR expr = '\N' THEN NULL ELSE base END`
when the field is nullable.  `evalTypeCast`/`evalNullableCast` evaluate those
expressions on one raw field value (`none` = the column was `null`). -/

structure FieldSpec where
  column : String
  type : String := "string"
  transform : List String := []
  nullable : Bool := false
deriving DecidableEq, Repr

instance : Inhabited FieldSpec := ⟨{ column := "" }⟩

/-- BOM-strip, trim and `\N`-sentinel normalisation of `type_cast`
(auraLoader.py:119-122): replace the BOM, trim, then map the literal
two-character sentinel `\N` to the empty string. -/
def typeNormStr (s : String) : String :=
  let t := cyTrim (cyStripBom s)
  if t = "\\N" then "" else t

/-- Final coercion step of `type_cast` (auraLoader.py:125-128). -/
def castTo (t : String) (s : String) : Val :=
  if t = "int" then
    match cyToInteger s with
    | some n => Val.vint n
    | none => Val.vnull
  else if t = "float" then cyToFloat s
  else Val.vstr s

/-- Evaluation of the expression built by `type_cast` (auraLoader.py:115-129)
on a raw field value.  A `null` input propagates through every Cypher
function to `null`. -/
def evalTypeCast (spec : FieldSpec) (v : Option String) : Val :=
  match v with
  | none => Val.vnull
  | some s =>
    castTo spec.type
      (if spec.transform.contains "lower" then cyToLower (typeNormStr s) else typeNormStr s)

/-- Evaluation of the expression built by `nullable_cast` (auraLoader.py:131-134):
the null-check `expr IS NULL OR expr = '' OR expr = '\N'` tests the *raw*
value; only when the field is nullable. -/
def evalNullableCast (spec : FieldSpec) (v : Option String) : Val :=
  if spec.nullable then
    match v with
    | none => Val.vnull
    | some s => if s = "" || s = "\\N" then Val.vnull else evalTypeCast spec (some s)
  else evalTypeCast spec v

/-! ## Rows and the WHERE skip-guard

A CSV row as `LOAD CSV WITH HEADERS` presents it: an association of header
names to field values; a column absent from the association is `null`. -/

def Row : Type := List (String × String)

/-- Value of column `col` in a row (`none` = `null`). -/
def rowGet (row : Row) (col : String) : Option String :=
  (List.find? (fun p => p.1 = col) row).map (fun p => p.2)

/-- Normalisation used inside the generated skip-guard
(auraLoader.py:148-151 and 204-207):
`CASE WHEN replace(trim(row.col), BOM, '') = '\N' THEN '' ELSE ... END`
(trim first, then BOM-strip, then sentinel-to-empty). -/
def guardNorm (s : String) : String :=
  let t := cyStripBom (cyTrim s)
  if t = "\\N" then "" else t

/-- One conjunct of the skip-guard: the row's value in `col` normalises to a
non-empty string.  A `null` value makes the Cypher comparison `null`, which
`WITH row WHERE` filters out, hence `false`. -/
def guardOkCol (row : Row) (col : String) : Bool :=
  match rowGet row col with
  | none => false
  | some v => guardNorm v ≠ ""

/-! ## Graph state

Nodes and edges carry property lists; the edge list is a multiset of
parallel edges.  This is the state the generated `MERGE`/`SET` statements
evolve. -/

structure Node where
  id : Nat
  label : String
  props : List (String × Val)
deriving DecidableEq, Repr

structure Edge where
  src : Nat
  dst : Nat
  type : String
  props : List (String × Val)
deriving DecidableEq, Repr

structure GraphState where
  nodes : List Node
  edges : List Edge
  nextId : Nat := 0
deriving DecidableEq, Repr

/-- Property lookup (first binding wins). -/
def plookup (ps : List (String × Val)) (k : String) : Option Val :=
  (List.find? (fun p => p.1 = k) ps).map (fun p => p.2)

/-- Model of `SET x.k = v`: update the binding in place, appending when the
property is new. -/
def propSet (ps : List (String × Val)) (k : String) (v : Val) : List (String × Val) :=
  if ps.any (fun p => p.1 = k) then
    ps.map (fun p => if p.1 = k then (k, v) else p)
  else ps ++ [(k, v)]

/-- Apply a list of `SET` assignments in order. -/
def propsSetAll (ps : List (String × Val)) (setters : List (String × Val)) : List (String × Val) :=
  setters.foldl (fun acc kv => propSet acc kv.1 kv.2) ps

/-- Run-scoped parameters supplied to every load statement
(`$source_system`, `$ingest_batch`; auraLoader.py:411-414). -/
structure RunParams where
  source_system : String
  ingest_batch : String
deriving DecidableEq, Repr

/-! ## Node load bodies (`build_node_load_body`, auraLoader.py:137-171) -/

structure NodeSpec where
  source : String := ""
  label : String
  key : List String
  mappings : List (String × FieldSpec)
deriving DecidableEq, Repr

/-- Lookup of a mapping entry by property name. -/
def mlookup (m : List (String × FieldSpec)) (k : String) : Option FieldSpec :=
  (List.find? (fun p => p.1 = k) m).map (fun p => p.2)

/-- Source columns of the key fields (`key_cols`, auraLoader.py:141). -/
def nodeKeyCols (spec : NodeSpec) : List String :=
  spec.key.map (fun k => ((mlookup spec.mappings k).getD default).column)

/-- The generated `WITH row WHERE ...` skip-guard of a node load body
(auraLoader.py:148-152): every key column must normalise to non-empty. -/
def nodeGuard (spec : NodeSpec) (row : Row) : Bool :=
  (nodeKeyCols spec).all (guardOkCol row)

/-- Merge-key properties of the `MERGE (n:label { ... })` pattern
(auraLoader.py:143-146), each compiled with `type_cast`.  Merging on a
`null` property is a Cypher runtime error; that aborting case is modelled
as `none` and left unchanged by the row semantics below. -/
def nodeMergeProps (spec : NodeSpec) (row : Row) : Option (List (String × Val)) :=
  let l := spec.key.map (fun k =>
    let fs := (mlookup spec.mappings k).getD default
    (k, evalTypeCast fs (rowGet row fs.column)))
  if l.any (fun p => p.2 = Val.vnull) then none else some l

/-- The `SET` clause of a node load body (auraLoader.py:154-164): every
mapped property (key fields via `type_cast`, the rest via `nullable_cast`)
plus the three provenance stamps. -/
def nodeSetters (params : RunParams) (now : Val) (spec : NodeSpec) (row : Row) :
    List (String × Val) :=
  spec.mappings.map (fun pfs =>
    (pfs.1,
      if spec.key.contains pfs.1 then evalTypeCast pfs.2 (rowGet row pfs.2.column)
      else evalNullableCast pfs.2 (rowGet row pfs.2.column)))
  ++ [("source_system", Val.vstr params.source_system),
      ("ingest_batch", Val.vstr params.ingest_batch),
      ("ingested_at", now)]

/-- Does a node match the `MERGE` pattern `(n:label { mp })`? -/
def nodeMatches (n : Node) (label : String) (mp : List (String × Val)) : Bool :=
  n.label = label && mp.all (fun kv => plookup n.props kv.1 = some kv.2)

/-- Effect on the graph of running the generated node load body on one row:
skip when the guard fails, otherwise merge-by-key and set every property. -/
def applyNodeRow (params : RunParams) (now : Val) (spec : NodeSpec)
    (s : GraphState) (row : Row) : GraphState :=
  if nodeGuard spec row then
    match nodeMergeProps spec row with
    | none => s
    | some mp =>
      let setters := nodeSetters params now spec row
      if s.nodes.any (fun n => nodeMatches n spec.label mp) then
        { s with nodes := s.nodes.map (fun n =>
            if nodeMatches n spec.label mp then
              { n with props := propsSetAll n.props setters } else n) }
      else
        { s with
            nodes := s.nodes ++
              [{ id := s.nextId, label := spec.label, props := propsSetAll mp setters }],
            nextId := s.nextId + 1 }
  else s

/-! ## Relationship load bodies (`build_rel_load_body`, auraLoader.py:173-229) -/

structure EndpointSpec where
  label : String
  match_on : List String
deriving DecidableEq, Repr

/-- The `from` and `to` keys of the source are Lean keywords, hence
`fromSpec`/`toSpec`. -/
structure RelSpec where
  source : String := ""
  type : String
  direction : String := "OUT"
  fromSpec : EndpointSpec
  toSpec : EndpointSpec
  props : List (String × FieldSpec)
deriving DecidableEq, Repr

/-- Split a `match_on` entry `srcCol[:targetProp]` at its colon
(auraLoader.py:184-187 and 193). -/
def splitColon (k : String) : String × String :=
  match k.toList.splitOn ':' with
  | [a, b] => (String.mk a, String.mk b)
  | _ => (k, k)

/-- Source columns that must be non-empty for a relationship row
(`required_cols`, auraLoader.py:191-193). -/
def requiredCols (spec : RelSpec) : List String :=
  (spec.fromSpec.match_on ++ spec.toSpec.match_on).map (fun k => (splitColon k).1)

/-- Does the relationship carry the `linkid` discriminator
(`"linkid" in props`, auraLoader.py:197)? -/
def hasLinkid (spec : RelSpec) : Bool :=
  spec.props.any (fun p => p.1 = "linkid")

/-- The generated `WITH row WHERE ...` skip-guard of a relationship body
(auraLoader.py:204-207): every required endpoint column, and the `linkid`
column when the discriminator is present (auraLoader.py:198-201), must
normalise to non-empty. -/
def relGuard (spec : RelSpec) (row : Row) : Bool :=
  (requiredCols spec).all (guardOkCol row) && (!hasLinkid spec || guardOkCol row "linkid")

/-- Endpoint lookup value: `toInteger(replace(trim(row.col), BOM, ''))`
(auraLoader.py:188); note there is no `\N`-sentinel step here. -/
def endpointVal (row : Row) (col : String) : Option Int :=
  (rowGet row col).bind (fun v => cyToInteger (cyStripBom (cyTrim v)))

/-- All `(targetProp, value)` pairs of an endpoint pattern, `none` as soon
as one value is `null` (a `null` in a `MATCH` property pattern matches no
node). -/
def endpointVals (ep : EndpointSpec) (row : Row) : Option (List (String × Int)) :=
  ep.match_on.foldr (fun k acc =>
    match acc with
    | none => none
    | some rest =>
      let cp := splitColon k
      match endpointVal row cp.1 with
      | none => none
      | some n => some ((cp.2, n) :: rest)) (some [])

/-- Nodes matched by the endpoint pattern `(x_role:label { ... })`
(auraLoader.py:180-189). -/
def endpointMatch (nodes : List Node) (ep : EndpointSpec) (row : Row) : List Node :=
  match endpointVals ep row with
  | none => []
  | some pv =>
    nodes.filter (fun n =>
      n.label = ep.label && pv.all (fun q => plookup n.props q.1 = some (Val.vint q.2)))

/-- Merge value of the discriminator:
`toInteger(replace(trim(row.linkid), BOM, ''))` (auraLoader.py:202). -/
def mergeLinkid (row : Row) : Option Int := endpointVal row "linkid"

/-- Properties inside the relationship `MERGE` pattern (auraLoader.py:195-202):
`{ linkid: ... }` when the discriminator is present, empty otherwise.
`none` models the Cypher runtime error of merging on a `null` property. -/
def relMergeProps (spec : RelSpec) (row : Row) : Option (List (String × Val)) :=
  if hasLinkid spec then (mergeLinkid row).map (fun n => [("linkid", Val.vint n)])
  else some []

/-- Direction resolution of the merge pattern (auraLoader.py:209-212):
`from → to` for `OUT`, reversed otherwise. -/
def dirResolve (spec : RelSpec) (a b : Node) : Node × Node :=
  if spec.direction.toList.map Char.toUpper = "OUT".toList then (a, b) else (b, a)

/-- The `SET` clause of a relationship body (auraLoader.py:214-221): every
declared edge property via `nullable_cast` plus the provenance stamps. -/
def relSetters (params : RunParams) (now : Val) (spec : RelSpec) (row : Row) :
    List (String × Val) :=
  spec.props.map (fun pfs => (pfs.1, evalNullableCast pfs.2 (rowGet row pfs.2.column)))
  ++ [("source_system", Val.vstr params.source_system),
      ("ingest_batch", Val.vstr params.ingest_batch),
      ("ingested_at", now)]

/-- Does an edge match the merge pattern between the resolved endpoints? -/
def edgeMatches (e : Edge) (src dst : Nat) (t : String) (mp : List (String × Val)) : Bool :=
  e.src = src && e.dst = dst && e.type = t
    && mp.all (fun kv => plookup e.props kv.1 = some kv.2)

/-- Merge-and-set of the edge pattern for one matched endpoint pair. -/
def mergeRelPair (params : RunParams) (now : Val) (spec : RelSpec) (row : Row)
    (st : GraphState) (a b : Node) : GraphState :=
  let sd := dirResolve spec a b
  match relMergeProps spec row with
  | none => st
  | some mp =>
    let setters := relSetters params now spec row
    if st.edges.any (fun e => edgeMatches e sd.1.id sd.2.id spec.type mp) then
      { st with edges := st.edges.map (fun e =>
          if edgeMatches e sd.1.id sd.2.id spec.type mp then
            { e with props := propsSetAll e.props setters } else e) }
    else
      { st with edges := st.edges ++
          [{ src := sd.1.id, dst := sd.2.id, type := spec.type,
             props := propsSetAll mp setters }] }

/-- Effect on the graph of running the generated relationship load body on
one row: skip when the guard fails, otherwise merge-and-set the edge for
every pair of matched endpoints. -/
def applyRelRow (params : RunParams) (now : Val) (spec : RelSpec)
    (s : GraphState) (row : Row) : GraphState :=
  if relGuard spec row then
    ((endpointMatch s.nodes spec.fromSpec row).flatMap (fun a =>
        (endpointMatch s.nodes spec.toSpec row).map (fun b => (a, b)))).foldl
      (fun st ab => mergeRelPair params now spec row st ab.1 ab.2) s
  else s

/-- Number of edges of a given type between two endpoints. -/
def relCount (s : GraphState) (src dst : Nat) (t : String) : Nat :=
  s.edges.countP (fun e => e.src = src && e.dst = dst && e.type = t)

/-- Number of edges of a given type between two endpoints whose `linkid`
property equals `n`. -/
def relCountLinkid (s : GraphState) (src dst : Nat) (t : String) (n : Int) : Nat :=
  s.edges.countP (fun e =>
    e.src = src && e.dst = dst && e.type = t && plookup e.props "linkid" = some (Val.vint n))

/-! ## Derived-edge promotion (`promote_named_edges`, auraLoader.py:243-258)

Each map entry runs
`MATCH (a:synset)-[r:SYNSET {linkid:$lid}]->(b:synset)
 MERGE (a)-[x:TYPE]->(b) ON CREATE SET ...provenance...`. -/

structure PromoteEntry where
  linkid : Int
  type : String
deriving DecidableEq, Repr

/-- Generic edges matched by the promotion `MATCH` pattern: a `SYNSET`-typed
edge with the given `linkid` whose endpoints are `synset`-labelled nodes. -/
def genericMatches (s : GraphState) (lid : Int) : List Edge :=
  s.edges.filter (fun e =>
    e.type = "SYNSET" && plookup e.props "linkid" = some (Val.vint lid)
      && s.nodes.any (fun n => n.id = e.src && n.label = "synset")
      && s.nodes.any (fun n => n.id = e.dst && n.label = "synset"))

/-- Model of Cypher `coalesce(v, d)`. -/
def coalesceV (v : Option Val) (d : Val) : Val :=
  match v with
  | some Val.vnull => d
  | some w => w
  | none => d

/-- The `ON CREATE SET` provenance of a promoted edge (auraLoader.py:253-256),
derived from the source edge with `wordnet`/`derived` fallbacks. -/
def derivedProps (e : Edge) (now : Val) : List (String × Val) :=
  [("source_system", coalesceV (plookup e.props "source_system") (Val.vstr "wordnet")),
   ("ingest_batch", coalesceV (plookup e.props "ingest_batch") (Val.vstr "derived")),
   ("ingested_at", now)]

/-- Existence test of the pattern `(a)-[x:rtype]->(b)` for the endpoints of
a generic edge: any same-type edge between them, whatever its properties. -/
def derivedAny (st : GraphState) (e : Edge) (rtype : String) : Bool :=
  st.edges.any (fun x => x.src = e.src && x.dst = e.dst && x.type = rtype)

/-- Merge of the promoted edge for one matched generic edge: `MERGE` with no
pattern properties matches any same-type edge between the endpoints, and
only a created edge receives the `ON CREATE SET` stamps. -/
def mergeDerived (rtype : String) (now : Val) (st : GraphState) (e : Edge) : GraphState :=
  if derivedAny st e rtype then st
  else { st with edges := st.edges ++
      [{ src := e.src, dst := e.dst, type := rtype, props := derivedProps e now }] }

/-- Effect of one promotion map entry. -/
def promoteEntry (now : Val) (s : GraphState) (m : PromoteEntry) : GraphState :=
  (genericMatches s m.linkid).foldl (mergeDerived m.type now) s

/-- Effect of `promote_named_edges` over the whole configured map. -/
def promote_named_edges (now : Val) (entries : List PromoteEntry) (s : GraphState) :
    GraphState :=
  entries.foldl (promoteEntry now) s

/-! ## Textual statement builders

These mirror the Python string construction character for character.  A
single-quote character is built by `sq` and literal braces are written with
hexadecimal escapes. -/

/-- A single-quote character as a string. -/
def sq : String := String.singleton (Char.ofNat 39)

/-- Wrap a string in single quotes. -/
def q (s : String) : String := sq ++ s ++ sq

/-- Text of `type_cast` (auraLoader.py:115-129): the Cypher value expression
for one field. -/
def type_cast (expr : String) (spec : FieldSpec) : String :=
  let e := "replace(" ++ expr ++ ", " ++ q "\\uFEFF" ++ ", " ++ q "" ++ ")"
  let e := "trim(" ++ e ++ ")"
  let e := "CASE WHEN " ++ e ++ " = " ++ q "\\\\N" ++ " THEN " ++ q "" ++ " ELSE " ++ e ++ " END"
  let e := if spec.transform.contains "lower" then "toLower(" ++ e ++ ")" else e
  if spec.type = "int" then "toInteger(" ++ e ++ ")"
  else if spec.type = "float" then "toFloat(" ++ e ++ ")"
  else e

/-- Text of `nullable_cast` (auraLoader.py:131-134). -/
def nullable_cast (expr : String) (spec : FieldSpec) : String :=
  let base := type_cast expr spec
  let check := expr ++ " IS NULL OR " ++ expr ++ " = " ++ q "" ++ " OR " ++ expr ++ " = " ++ q "\\\\N"
  if spec.nullable then "CASE WHEN " ++ check ++ " THEN NULL ELSE " ++ base ++ " END"
  else base

/-- Text of one skip-guard conjunct (auraLoader.py:148-151 / 204-206). -/
def keyPredStr (col : String) : String :=
  "(CASE WHEN replace(trim(row.`" ++ col ++ "`), " ++ q "\\uFEFF" ++ "," ++ q "" ++ ") = "
    ++ q "\\\\N" ++ " THEN " ++ q "" ++ " ELSE replace(trim(row.`" ++ col ++ "`), "
    ++ q "\\uFEFF" ++ "," ++ q "" ++ ") END) <> " ++ q ""

/-- Text of `matchExprStr` (auraLoader.py:180-189). -/
def matchExprStr (role : String) (ep : EndpointSpec) : String :=
  "(x_" ++ role ++ ":`" ++ ep.label ++ "` \x7b "
    ++ String.intercalate ", " (ep.match_on.map (fun k =>
        let cp := splitColon k
        "`" ++ cp.2 ++ "`: toInteger(replace(trim(row.`" ++ cp.1 ++ "`), "
          ++ q "\\uFEFF" ++ "," ++ q "" ++ "))"))
    ++ " \x7d)"

/-- Text of `linkid_guard` (auraLoader.py:198-201), empty when the spec has
no discriminator. -/
def linkidGuardStr (spec : RelSpec) : String :=
  if hasLinkid spec then
    " AND (CASE WHEN replace(trim(row.`linkid`), " ++ q "\\uFEFF" ++ "," ++ q "" ++ ") = "
      ++ q "\\\\N" ++ " THEN " ++ q "" ++ " ELSE replace(trim(row.`linkid`), "
      ++ q "\\uFEFF" ++ "," ++ q "" ++ ") END) <> " ++ q ""
  else ""

/-- Text of `merge_rel_props` (auraLoader.py:195-202). -/
def mergeRelPropsStr (spec : RelSpec) : String :=
  if hasLinkid spec then
    " \x7b linkid: toInteger(replace(trim(row.`linkid`), " ++ q "\\uFEFF" ++ "," ++ q "" ++ ")) \x7d"
  else ""

/-- Upper-cased direction test (`direction.upper() == "OUT"`). -/
def isOutDir (spec : RelSpec) : Bool :=
  spec.direction.toList.map Char.toUpper = "OUT".toList

/-- Text of the relationship merge pattern (auraLoader.py:209-212). -/
def relPattern (spec : RelSpec) : String :=
  if isOutDir spec then
    "(x_from)-[r:`" ++ spec.type ++ "`" ++ mergeRelPropsStr spec ++ "]->(x_to)"
  else
    "(x_to)-[r:`" ++ spec.type ++ "`" ++ mergeRelPropsStr spec ++ "]->(x_from)"

/-- Text of the relationship `SET` clause (auraLoader.py:214-221). -/
def relSettersStr (spec : RelSpec) : String :=
  String.intercalate ", "
    ((spec.props.map (fun pfs =>
        "r.`" ++ pfs.1 ++ "` = " ++ nullable_cast ("row." ++ pfs.2.column) pfs.2))
      ++ ["r.source_system = $source_system",
          "r.ingest_batch  = $ingest_batch",
          "r.ingested_at   = datetime()"])

/-- Text of the relationship `WITH row WHERE` line (auraLoader.py:204-207 and 224). -/
def relWhereStr (spec : RelSpec) : String :=
  "WITH row WHERE "
    ++ String.intercalate " AND " ((requiredCols spec).map keyPredStr)
    ++ linkidGuardStr spec

/-- Text of `build_rel_load_body` (auraLoader.py:173-229). -/
def build_rel_load_body (spec : RelSpec) : String :=
  relWhereStr spec
    ++ "\nMATCH " ++ matchExprStr "from" spec.fromSpec ++ ", " ++ matchExprStr "to" spec.toSpec
    ++ "\nMERGE " ++ relPattern spec
    ++ "\nSET " ++ relSettersStr spec

/-! ## Constraint and index statements (`build_constraint_cypher`, auraLoader.py:98-113) -/

structure IndexDecl where
  kind : String := ""
  label : String := ""
  type : String := ""
  unique : Bool := false
  properties : List String := []
deriving DecidableEq, Repr

/-- Statement for one runtime index declaration: `none` models the
`IndexError` of `props[0]` on an empty property list, `some none` a
declaration of an unknown kind, which contributes nothing. -/
def constraintStmt (idx : IndexDecl) : Option (Option String) :=
  if idx.kind = "constraint" then
    match idx.properties.head? with
    | none => none
    | some p =>
      if idx.unique then
        some (some ("CREATE CONSTRAINT IF NOT EXISTS FOR (n:`" ++ idx.label
          ++ "`) REQUIRE n.`" ++ p ++ "` IS UNIQUE;"))
      else
        some (some ("CREATE INDEX IF NOT EXISTS FOR (n:`" ++ idx.label
          ++ "`) ON (n.`" ++ p ++ "`);"))
  else if idx.kind = "rel_index" then
    match idx.properties.head? with
    | none => none
    | some p =>
      some (some ("CREATE INDEX IF NOT EXISTS FOR ()-[r:`" ++ idx.type
        ++ "`]-() ON (r.`" ++ p ++ "`);"))
  else some none

/-- Model of `build_constraint_cypher` (auraLoader.py:98-113): the generated
statement list, `none` when a declaration makes the Python crash. -/
def build_constraint_cypher : List IndexDecl → Option (List String)
  | [] => some []
  | idx :: rest =>
    match constraintStmt idx, build_constraint_cypher rest with
    | none, _ => none
    | some none, r => r
    | some (some s), some tail => some (s :: tail)
    | some (some _), none => none

/-! ## Batched execution (`load_csv_batched`, auraLoader.py:233-241)

The generated statement wraps the body in
`CALL (row) { ... } IN TRANSACTIONS OF k ROWS`; the database executes the
body row by row, committing every chunk of `k` rows.  The semantics is the
sequential fold of the body over the row stream, chunked. -/

/-- Partition a list into consecutive chunks of size `k`. -/
def chunksOf (k : Nat) : List α → List (List α)
  | [] => []
  | x :: xs => (x :: xs.take (k - 1)) :: chunksOf k (xs.drop (k - 1))
termination_by l => l.length
decreasing_by simp [List.length_drop]; omega

/-- Execute a statement body over the rows of one transactional chunk. -/
def run_chunk (body : GraphState → Row → GraphState) (st : GraphState)
    (chunk : List Row) : GraphState :=
  chunk.foldl body st

/-- Semantics of the statement built by `load_csv_batched` (auraLoader.py:233):
execute the body over the row stream in committed chunks of `k` rows. -/
def load_csv_batched (body : GraphState → Row → GraphState) (k : Nat)
    (rows : List Row) (st : GraphState) : GraphState :=
  (chunksOf k rows).foldl (run_chunk body) st

/-! ## CSV preflight scan (`count_missing_col_in_csv`, auraLoader.py:62-79) -/

/-- DictReader-style field access: the value under header `col`, `none`
when the column is absent or the row is too short. -/
def dictGet : List String → List String → String → Option String
  | [], _, _ => none
  | _ :: _, [], _ => none
  | h :: hs, v :: vs, col => if h = col then some v else dictGet hs vs col

/-- Python `(row.get(col) or "").strip().lstrip(bom)`: trim whitespace, then
strip leading BOM characters. -/
def pyNorm (v : String) : String :=
  String.mk ((trimChars v.toList).dropWhile (· = bomChar))

/-- Model of `count_missing_col_in_csv` (auraLoader.py:62-79): the number of
data rows whose value in `col` normalises to empty or to the `\N` sentinel. -/
def count_missing_col_in_csv (header : List String) (rows : List (List String))
    (col : String) : Nat :=
  rows.countP (fun r =>
    let v := (dictGet header r col).getD ""
    pyNorm v = "" || pyNorm v = "\\N")

/-- Decision taken on the scan result in `main` (auraLoader.py:403-409):
exit code 6 exactly when rows are missing and strict mode is on. -/
def strict_linkid_outcome (strict : Bool) (missing : Nat) : Option Nat :=
  if 0 < missing then (if strict then some 6 else none) else none

/-! ## Post-load validation (auraLoader.py:458-469) -/

inductive AssertOutcome where
  | passedA : AssertOutcome
  | failedA : AssertOutcome
  | reportedA : AssertOutcome
deriving DecidableEq, Repr

/-- Outcome of one graph assertion on its result rows: when the result is
non-empty and its first row carries an `ok` field, pass on `true`/`1` and
fail otherwise; any other shape is merely reported. -/
def validation_outcome (rows : List (List (String × Val))) : AssertOutcome :=
  match rows with
  | [] => AssertOutcome.reportedA
  | r :: _ =>
    match plookup r "ok" with
    | none => AssertOutcome.reportedA
    | some v =>
      if v = Val.vbool true || v = Val.vint 1 then AssertOutcome.passedA
      else AssertOutcome.failedA

/-- The validation loop of `main`: exit code 5 at the first failing
assertion, `none` when the loop completes. -/
def runValidations : List (List (List (String × Val))) → Option Nat
  | [] => none
  | a :: rest =>
    match validation_outcome a with
    | AssertOutcome.failedA => some 5
    | _ => runValidations rest

/-! ## The run orchestrator (`main`, auraLoader.py:328-472)

The orchestrator is modelled at the level of the database actions it
issues and the process result it ends with.  The HTTP layer is an
environment of functions from URLs to fetched data. -/

/-- Python `str.startswith`. -/
def pyStartswith (s pre : String) : Bool :=
  List.isPrefixOf pre.toList s.toList

/-- Python `item.split(".", 1)[1]`: everything after the first dot. -/
def afterFirstDot (s : String) : String :=
  String.mk ((s.toList.dropWhile (· ≠ '.')).drop 1)

/-- Python `os.path.basename` for slash-separated paths. -/
def basename (p : String) : String :=
  String.mk ((p.toList.splitOn '/').getLastD p.toList)

/-- Python `base_url.rstrip('/')`. -/
def rstripSlash (s : String) : String :=
  String.mk ((s.toList.reverse.dropWhile (· = '/')).reverse)

/-- Model of `is_url` (auraLoader.py:36). -/
def is_url (p : String) : Bool :=
  pyStartswith p "http://" || pyStartswith p "https://"

/-- Model of `to_url` (auraLoader.py:39-42); `urljoin` on a base with a
trailing slash and a plain file basename appends the basename. -/
def to_url (base path : String) : String :=
  if is_url path then path else rstripSlash base ++ "/" ++ basename path

structure Source where
  name : String
  path : String
  checksum_sha256 : Option String := none
  rows : Option Nat := none
deriving DecidableEq, Repr

structure ManifestEntry where
  name : String
  sha256 : Option String := none
  rows : Option Nat := none
deriving DecidableEq, Repr

/-- Command-line arguments of the run that the model depends on. -/
structure Args where
  password : Option String := some "pw"
  base_url : String := "https://host/data"
  verify_checksums : Bool := false
  verify_rowcounts : Bool := false
  strict_missing_linkid : Bool := false
  batch_rows : Nat := 10000
deriving DecidableEq, Repr

/-- The mapping document, restricted to the parts `main` reads. -/
structure Mapping where
  sources : List Source := []
  nodes : List (String × NodeSpec) := []
  relationships : List (String × RelSpec) := []
  promote_map : List PromoteEntry := []
  runtime_indexes : List IndexDecl := []
  load_order : List String := []
  graph_assertions : List String := []

/-- The external world: fetched checksums, row counts, CSV contents and
assertion query results, keyed by URL / query text. -/
structure Env where
  checksumOf : String → String
  rowcountOf : String → Nat
  csvHeader : String → List String
  csvRows : String → List (List String)
  assertionResult : String → List (List (String × Val))

/-- Manifest annotation of the declared sources (auraLoader.py:359-366). -/
def annotate_sources (sources : List Source) (manifest : List ManifestEntry) :
    List Source :=
  sources.map (fun s =>
    match manifest.find? (fun m => m.name = basename s.path) with
    | some m => { s with checksum_sha256 := m.sha256, rows := m.rows }
    | none => s)

/-- Checksum preflight test for one source (auraLoader.py:385-390). -/
def checksumFail (args : Args) (env : Env) (src : Source) : Bool :=
  match args.verify_checksums, src.checksum_sha256 with
  | true, some c => env.checksumOf (to_url args.base_url src.path) ≠ c
  | _, _ => false

/-- Row-count preflight test for one source (auraLoader.py:391-396). -/
def rowcountFail (args : Args) (env : Env) (src : Source) : Bool :=
  match args.verify_rowcounts, src.rows with
  | true, some n => env.rowcountOf (to_url args.base_url src.path) ≠ n
  | _, _ => false

/-- Strict missing-`linkid` preflight test (auraLoader.py:397-409); without
strict mode the scan only warns. -/
def linkidScanFail (args : Args) (env : Env) (src : Source) : Bool :=
  src.name = "semlinkref" && args.strict_missing_linkid
    && decide (0 < count_missing_col_in_csv
        (env.csvHeader (to_url args.base_url src.path))
        (env.csvRows (to_url args.base_url src.path)) "linkid")

/-- Preflight of one source, in the order the checks run: checksum (exit 3),
row count (exit 4), strict missing-linkid (exit 6). -/
def preflightSource (args : Args) (env : Env) (src : Source) : Option Nat :=
  if checksumFail args env src then some 3
  else if rowcountFail args env src then some 4
  else if linkidScanFail args env src then some 6
  else none

/-- Preflight over the declared sources, stopping at the first failure. -/
def preflightLoop (args : Args) (env : Env) : List Source → Option Nat
  | [] => none
  | s :: rest =>
    match preflightSource args env s with
    | some c => some c
    | none => preflightLoop args env rest

/-- The preflight block (auraLoader.py:379-409), entered only when one of
the three verification flags is set. -/
def preflight (args : Args) (env : Env) (srcs : List Source) : Option Nat :=
  if args.verify_checksums || args.verify_rowcounts || args.strict_missing_linkid then
    preflightLoop args env srcs
  else none

/-- Database actions the orchestrator issues, in order. -/
inductive Action where
  | schemaStmt (text : String) : Action
  | loadNodesAct (key : String) : Action
  | loadRelsAct (key : String) : Action
  | promoteAct : Action
deriving DecidableEq, Repr

/-- Process results of the run. -/
inductive RunResult where
  | completed : RunResult
  | exited (code : Nat) : RunResult
  | crashed : RunResult
deriving DecidableEq, Repr

/-- Dispatch of one `load_order` item (auraLoader.py:426-455): `none` models
the uncaught `KeyError`/`RuntimeError` of an unresolvable key or source,
`some none` an unrecognised item, which is printed and skipped, and
`some (some a)` the issued database action. -/
def loadItemAction (mapping : Mapping) (item : String) : Option (Option Action) :=
  if pyStartswith item "nodes." then
    match (mapping.nodes.find? (fun p => p.1 = afterFirstDot item)).map (fun p => p.2) with
    | none => none
    | some spec =>
      if (mapping.sources.find? (fun s => s.name = spec.source)).isSome then
        some (some (Action.loadNodesAct (afterFirstDot item)))
      else none
  else if pyStartswith item "relationships." then
    match (mapping.relationships.find? (fun p => p.1 = afterFirstDot item)).map (fun p => p.2) with
    | none => none
    | some spec =>
      if (mapping.sources.find? (fun s => s.name = spec.source)).isSome then
        some (some (Action.loadRelsAct (afterFirstDot item)))
      else none
  else if pyStartswith item "derived_relationships." then
    some (some Action.promoteAct)
  else some none

/-- The load loop over `load_order`: the actions issued and, on an uncaught
exception, the crash that ends the run. -/
def runLoadOrder (mapping : Mapping) : List String → List Action × Option RunResult
  | [] => ([], none)
  | it :: rest =>
    match loadItemAction mapping it with
    | none => ([], some RunResult.crashed)
    | some none => runLoadOrder mapping rest
    | some (some a) =>
      match runLoadOrder mapping rest with
      | (acts, r) => (a :: acts, r)

/-- Model of `main` (auraLoader.py:328-472): the database actions issued in
order and the process result.  Mutating actions on graph data are the
load/promote actions; constraint/index statements are schema statements
issued before preflight. -/
def mainRun (args : Args) (mapping : Mapping) (manifest : List ManifestEntry)
    (env : Env) : List Action × RunResult :=
  if args.password.isNone then ([], RunResult.exited 2)
  else
    match build_constraint_cypher mapping.runtime_indexes with
    | none => ([], RunResult.crashed)
    | some stmts =>
      let trace := stmts.map Action.schemaStmt
      let srcs := annotate_sources mapping.sources manifest
      match preflight args env srcs with
      | some code => (trace, RunResult.exited code)
      | none =>
        let mapping' := { mapping with sources := srcs }
        match runLoadOrder mapping' mapping'.load_order with
        | (acts, some r) => (trace ++ acts, r)
        | (acts, none) =>
          match runValidations (mapping.graph_assertions.map env.assertionResult) with
          | some c => (trace ++ acts, RunResult.exited c)
          | none => (trace ++ acts, RunResult.completed)

/-- A concrete environment used by the closed instances below: every fetch
returns fixed data. -/
def fixedEnv : Env :=
  { checksumOf := fun _ => "def456"
    rowcountOf := fun _ => 0
    csvHeader := fun _ => []
    csvRows := fun _ => []
    assertionResult := fun _ => [] }

/-! # Theorems -/

/-! ## Sentinel normalisation (claim C3) -/

theorem typeNormStr_empty_of (v : String)
    (hS : v = "" ∨ v = "\\N" ∨ cyTrim (cyStripBom v) = "") : typeNormStr v = "" := by
  rcases hS with h | h | h
  · subst h; decide
  · subst h; decide
  · unfold typeNormStr
    rw [h]
    decide

theorem castTo_empty (t : String) :
    castTo t "" = (if t = "int" ∨ t = "float" then Val.vnull else Val.vstr "") := by
  have hi : cyToInteger "" = none := by decide
  have hf : cyToFloat "" = Val.vnull := by decide
  unfold castTo
  by_cases h1 : t = "int" <;> by_cases h2 : t = "float" <;> simp [h1, h2, hi, hf]

theorem evalTypeCast_sentinel (fs : FieldSpec) (v : String)
    (hS : v = "" ∨ v = "\\N" ∨ cyTrim (cyStripBom v) = "") :
    evalTypeCast fs (some v) =
      (if fs.type = "int" ∨ fs.type = "float" then Val.vnull else Val.vstr "") := by
  have hn := typeNormStr_empty_of v hS
  have hlow : cyToLower "" = "" := by decide
  simp only [evalTypeCast]
  rw [hn]
  by_cases h : fs.transform.contains "lower" <;> simp [h, hlow, castTo_empty]

/-- Claim C3, amended.  For raw values equal to `''` or `'\N'` a nullable
field compiles to `null`.  A value consisting only of byte-order marks and
whitespace is missed by the raw null-check of `nullable_cast`, so it falls
through to the base `type_cast` — as does every sentinel-like value on a
non-nullable field — and the base cast yields `null` for `int`/`float`
fields (coercion of the empty string) but the empty *string* for string
fields, even when the field is nullable. -/
theorem C3_sentinel_normalization (fs : FieldSpec) (v : String)
    (hS : v = "" ∨ v = "\\N" ∨ cyTrim (cyStripBom v) = "") :
    ((fs.nullable = true ∧ (v = "" ∨ v = "\\N")) →
        evalNullableCast fs (some v) = Val.vnull)
    ∧ ((fs.nullable = false ∨ (v ≠ "" ∧ v ≠ "\\N")) →
        evalNullableCast fs (some v) =
          (if fs.type = "int" ∨ fs.type = "float" then Val.vnull else Val.vstr "")) := by
  constructor
  · rintro ⟨hn, hv⟩
    unfold evalNullableCast
    rcases hv with h | h <;> simp [hn, h]
  · rintro (hn | ⟨h1, h2⟩)
    · unfold evalNullableCast
      rw [hn]
      simp only [Bool.false_eq_true, if_false]
      exact evalTypeCast_sentinel fs v hS
    · unfold evalNullableCast
      by_cases hn : fs.nullable <;>
        simp [hn, h1, h2, evalTypeCast_sentinel fs v hS]

/-- Witness for C3: the byte-order-mark-only value on a nullable string
field compiles to the empty string, through the second branch of the
amended statement. -/
theorem C3_sentinel_normalization_witness :
    evalNullableCast { column := "c", nullable := true } (some "\uFEFF")
      = (if ({ column := "c", nullable := true } : FieldSpec).type = "int"
            ∨ ({ column := "c", nullable := true } : FieldSpec).type = "float"
          then Val.vnull else Val.vstr "") :=
  (C3_sentinel_normalization { column := "c", nullable := true } "\uFEFF"
      (Or.inr (Or.inr (by decide)))).2 (Or.inr ⟨by decide, by decide⟩)

/-- Counterexample to C3 as stated: the raw value `"\uFEFF"` consists only
of a byte-order mark, the field is nullable, and yet the compiled
expression evaluates to the empty string, not to `null`: the null-check of
`nullable_cast` inspects the raw value and does not see through the BOM. -/
theorem C3_counterexample :
    cyTrim "\uFEFF" = "\uFEFF"
    ∧ evalNullableCast { column := "c", nullable := true } (some "\uFEFF") = Val.vstr ""
    ∧ Val.vstr "" ≠ Val.vnull := by
  refine ⟨by decide, by decide, by decide⟩

/-! ## Constraint statements use only the first property (claim C9) -/

theorem constraintStmt_take_one (i : IndexDecl) :
    constraintStmt { i with properties := i.properties.take 1 } = constraintStmt i := by
  unfold constraintStmt
  cases h : i.properties <;> simp [h]

/-- Claim C9: the creation statement generated for every constraint or index
declaration references only the first entry of its `properties` list —
truncating every declaration to its first property yields statement lists
that are identical (including which declarations crash the builder). -/
theorem C9_first_property_only (idxs : List IndexDecl) :
    build_constraint_cypher (idxs.map (fun i => { i with properties := i.properties.take 1 }))
      = build_constraint_cypher idxs := by
  induction idxs with
  | nil => rfl
  | cons i rest ih =>
    simp only [List.map_cons, build_constraint_cypher, constraintStmt_take_one, ih]

/-! ## Missing-column preflight scan (claim C10) -/

theorem dictGet_of_not_mem (header : List String) (r : List String) (col : String)
    (h : ¬ col ∈ header) : dictGet header r col = none := by
  induction header generalizing r with
  | nil => cases r <;> rfl
  | cons hd tl ih =>
    cases r with
    | nil => rfl
    | cons v vs =>
      have hne : hd ≠ col := fun he => h (he ▸ List.mem_cons_self hd tl)
      simp [dictGet, hne, ih _ (fun hc => h (List.mem_cons_of_mem hd hc))]

/-- Claim C10: when the scanned column name is absent from the CSV header,
every data row counts as missing — the scan returns the total number of
data rows — and therefore strict mode fails the run (exit code 6) as soon
as the file has any data row. -/
theorem C10_missing_column_counts_all (header : List String) (rows : List (List String))
    (col : String) (h : ¬ col ∈ header) :
    count_missing_col_in_csv header rows col = rows.length
    ∧ (0 < rows.length →
        strict_linkid_outcome true (count_missing_col_in_csv header rows col) = some 6) := by
  have hall : count_missing_col_in_csv header rows col = rows.length := by
    unfold count_missing_col_in_csv
    refine List.countP_eq_length.mpr (fun r _ => ?_)
    simp [dictGet_of_not_mem header r col h]
    decide
  refine ⟨hall, fun hpos => ?_⟩
  rw [hall]
  unfold strict_linkid_outcome
  simp [hpos]

/-- Witness for C10 at a concrete file whose header lacks `linkid`. -/
theorem C10_missing_column_counts_all_witness :
    count_missing_col_in_csv ["synsetid"] [["7"], ["8"]] "linkid" = 2
    ∧ (0 < ([["7"], ["8"]] : List (List String)).length →
        strict_linkid_outcome true (count_missing_col_in_csv ["synsetid"] [["7"], ["8"]] "linkid")
          = some 6) :=
  C10_missing_column_counts_all ["synsetid"] [["7"], ["8"]] "linkid" (by decide)

/-! ## Post-load validation policy (claim C5) -/

theorem runValidations_eq_some_five (asserts : List (List (List (String × Val)))) :
    runValidations asserts = some 5 ↔
      ∃ a ∈ asserts, validation_outcome a = AssertOutcome.failedA := by
  induction asserts with
  | nil => simp [runValidations]
  | cons a rest ih =>
    unfold runValidations
    cases h : validation_outcome a <;> simp [h, ih]

/-- Claim C5: an assertion fails the run exactly when its result is
non-empty, the first row carries the `ok` field, and that value is neither
`true` nor `1`; an empty result or a first row without `ok` is only
reported.  The validation loop exits with the distinct code 5 exactly when
some assertion fails, and 5 is the only code it can produce. -/
theorem C5_validation_policy (rows : List (List (String × Val)))
    (asserts : List (List (List (String × Val)))) :
    (validation_outcome rows = AssertOutcome.failedA ↔
      ∃ r rest v, rows = r :: rest ∧ plookup r "ok" = some v
        ∧ v ≠ Val.vbool true ∧ v ≠ Val.vint 1)
    ∧ (runValidations asserts = some 5 ↔
        ∃ a ∈ asserts, validation_outcome a = AssertOutcome.failedA)
    ∧ (∀ c, runValidations asserts = some c → c = 5) := by
  refine ⟨?_, runValidations_eq_some_five asserts, ?_⟩
  · cases rows with
    | nil => simp [validation_outcome]
    | cons r rest =>
      unfold validation_outcome
      cases h : plookup r "ok" with
      | none => simp [h]
      | some v =>
        by_cases hv : v = Val.vbool true ∨ v = Val.vint 1
        · rcases hv with hv | hv <;> simp [h, hv]
        · push_neg at hv
          simp [h, hv.1, hv.2]
  · intro c
    induction asserts with
    | nil =>
      intro h
      simp [runValidations] at h
    | cons a rest ih =>
      unfold runValidations
      cases h : validation_outcome a
      · exact fun hc => ih hc
      · intro hc
        injection hc with h2
        exact h2.symm
      · exact fun hc => ih hc

/-- Witness for C5: an assertion whose `ok` value is `0` fails the run with
exit code 5. -/
theorem C5_validation_policy_witness :
    validation_outcome [[("ok", Val.vint 0)]] = AssertOutcome.failedA
    ∧ runValidations [[[("ok", Val.vint 0)]]] = some 5 :=
  ⟨(C5_validation_policy [[("ok", Val.vint 0)]] []).1.mpr
      ⟨[("ok", Val.vint 0)], [], Val.vint 0, rfl, by decide, by decide, by decide⟩,
   (C5_validation_policy [] [[[("ok", Val.vint 0)]]]).2.1.mpr
      ⟨[[("ok", Val.vint 0)]], by simp, by decide⟩⟩

/-! ## Batching transparency (claim C8) -/

theorem chunksOf_flatten_bounded {α : Type} (k n : Nat) :
    ∀ l : List α, l.length ≤ n → (chunksOf k l).flatten = l := by
  induction n with
  | zero =>
    intro l h
    cases l with
    | nil => simp [chunksOf]
    | cons x xs => simp at h
  | succ n ih =>
    intro l h
    cases l with
    | nil => simp [chunksOf]
    | cons x xs =>
      rw [chunksOf]
      rw [List.flatten_cons]
      have hd : (xs.drop (k - 1)).length ≤ n := by
        have := List.length_drop (k - 1) xs
        have hx : xs.length ≤ n := by simpa using h
        omega
      rw [ih _ hd]
      simp [List.cons_append, List.take_append_drop]

theorem chunksOf_flatten {α : Type} (k : Nat) (l : List α) : (chunksOf k l).flatten = l :=
  chunksOf_flatten_bounded k l.length l (Nat.le_refl _)

theorem foldl_chunks_eq_foldl (body : GraphState → Row → GraphState)
    (cs : List (List Row)) (st : GraphState) :
    cs.foldl (run_chunk body) st = cs.flatten.foldl body st := by
  induction cs generalizing st with
  | nil => rfl
  | cons c rest ih => simp [run_chunk, List.foldl_append, ih]

/-- Claim C8: batching is transparent — executing a statement body over a
row stream in committed chunks of `k ≥ 1` rows produces the same final
graph state as executing it over all rows in a single chunk. -/
theorem C8_batching_transparency (body : GraphState → Row → GraphState)
    (k : Nat) (rows : List Row) (st : GraphState) (hk : 1 ≤ k) :
    load_csv_batched body k rows st = run_chunk body st rows := by
  unfold load_csv_batched
  rw [foldl_chunks_eq_foldl, chunksOf_flatten]
  rfl

/-- Witness for C8 on a concrete node spec, three rows and chunk size 2. -/
theorem C8_batching_transparency_witness :
    load_csv_batched
        (applyNodeRow { source_system := "wordnet", ingest_batch := "b1" } (Val.vstr "t")
          { label := "synset", key := ["synsetid"],
            mappings := [("synsetid", { column := "synsetid", type := "int" })] })
        2
        [[("synsetid", "1")], [("synsetid", "2")], [("synsetid", "1")]]
        { nodes := [], edges := [], nextId := 0 }
      = run_chunk
          (applyNodeRow { source_system := "wordnet", ingest_batch := "b1" } (Val.vstr "t")
            { label := "synset", key := ["synsetid"],
              mappings := [("synsetid", { column := "synsetid", type := "int" })] })
          { nodes := [], edges := [], nextId := 0 }
          [[("synsetid", "1")], [("synsetid", "2")], [("synsetid", "1")]] :=
  C8_batching_transparency _ 2 _ _ (by decide)

/-! ## Key-skip invariant (claim C2) -/

theorem guardOkCol_iff (row : Row) (col : String) :
    guardOkCol row col = true ↔ ∃ v, rowGet row col = some v ∧ guardNorm v ≠ "" := by
  unfold guardOkCol
  cases h : rowGet row col <;> simp [h]

/-- Claim C2: the generated load bodies skip exactly the rows in which some
key column (for nodes), required endpoint column or required `linkid`
discriminator (for relationships) is `null` or normalises — trim, then
BOM-strip, then `\N`-to-empty — to the empty string; a skipped row changes
the graph in no way, and every other row passes the skip-guard. -/
theorem C2_key_skip_invariant (params : RunParams) (now : Val)
    (nspec : NodeSpec) (rspec : RelSpec) (s : GraphState) (row : Row) :
    (nodeGuard nspec row = false → applyNodeRow params now nspec s row = s)
    ∧ (nodeGuard nspec row = true ↔
        ∀ col ∈ nodeKeyCols nspec, ∃ v, rowGet row col = some v ∧ guardNorm v ≠ "")
    ∧ (relGuard rspec row = false → applyRelRow params now rspec s row = s)
    ∧ (relGuard rspec row = true ↔
        ((∀ col ∈ requiredCols rspec, ∃ v, rowGet row col = some v ∧ guardNorm v ≠ "")
          ∧ (hasLinkid rspec = true →
              ∃ v, rowGet row "linkid" = some v ∧ guardNorm v ≠ ""))) := by
  refine ⟨fun h => ?_, ?_, fun h => ?_, ?_⟩
  · simp [applyNodeRow, h]
  · unfold nodeGuard
    rw [List.all_eq_true]
    simp only [guardOkCol_iff]
  · simp [applyRelRow, h]
  · unfold relGuard
    rw [Bool.and_eq_true, List.all_eq_true]
    simp only [guardOkCol_iff]
    constructor
    · rintro ⟨ha, hb⟩
      refine ⟨ha, fun hl => ?_⟩
      rw [hl] at hb
      simpa [guardOkCol_iff] using hb
    · rintro ⟨ha, hb⟩
      refine ⟨ha, ?_⟩
      cases hl : hasLinkid rspec
      · simp
      · simpa [guardOkCol_iff] using hb hl

/-- Witness for C2: a row whose only key value is a BOM inside whitespace is
skipped by a node load body, and a row with an empty `linkid` is skipped by
a discriminator-bearing relationship body. -/
theorem C2_key_skip_invariant_witness :
    applyNodeRow { source_system := "wordnet", ingest_batch := "b" } (Val.vstr "t")
        { label := "synset", key := ["synsetid"],
          mappings := [("synsetid", { column := "synsetid", type := "int" })] }
        { nodes := [], edges := [], nextId := 0 }
        [("synsetid", " \uFEFF ")]
      = { nodes := [], edges := [], nextId := 0 }
    ∧ applyRelRow { source_system := "wordnet", ingest_batch := "b" } (Val.vstr "t")
        { type := "SYNSET",
          fromSpec := { label := "synset", match_on := ["synset1id:synsetid"] },
          toSpec := { label := "synset", match_on := ["synset2id:synsetid"] },
          props := [("linkid", { column := "linkid", type := "int" })] }
        { nodes := [], edges := [], nextId := 0 }
        [("synset1id", "1"), ("synset2id", "2"), ("linkid", "")]
      = { nodes := [], edges := [], nextId := 0 } :=
  ⟨(C2_key_skip_invariant { source_system := "wordnet", ingest_batch := "b" } (Val.vstr "t")
      { label := "synset", key := ["synsetid"],
        mappings := [("synsetid", { column := "synsetid", type := "int" })] }
      { type := "SYNSET",
        fromSpec := { label := "synset", match_on := ["synset1id:synsetid"] },
        toSpec := { label := "synset", match_on := ["synset2id:synsetid"] },
        props := [("linkid", { column := "linkid", type := "int" })] }
      { nodes := [], edges := [], nextId := 0 }
      [("synsetid", " \uFEFF ")]).1 (by decide),
   (C2_key_skip_invariant { source_system := "wordnet", ingest_batch := "b" } (Val.vstr "t")
      { label := "synset", key := ["synsetid"],
        mappings := [("synsetid", { column := "synsetid", type := "int" })] }
      { type := "SYNSET",
        fromSpec := { label := "synset", match_on := ["synset1id:synsetid"] },
        toSpec := { label := "synset", match_on := ["synset2id:synsetid"] },
        props := [("linkid", { column := "linkid", type := "int" })] }
      { nodes := [], edges := [], nextId := 0 }
      [("synset1id", "1"), ("synset2id", "2"), ("linkid", "")]).2.2.1 (by decide)⟩

/-! ## Unresolved load_order entries (claim C4) -/

/-- Counterexample to C4 as stated: a run whose `load_order` holds the
unresolvable entry `"frobnicate"` does not abort — the entry is reported
and skipped and the run completes normally. -/
theorem C4_counterexample :
    mainRun {} { load_order := ["frobnicate"] } [] fixedEnv = ([], RunResult.completed) := by
  decide

/-- Claim C4, amended: a `load_order` entry with none of the three known
prefixes is logged and skipped (the run goes on, no error); only an entry
with a `nodes.`/`relationships.` prefix whose key does not resolve aborts
the run, and then through an uncaught `KeyError`, not a clean
configuration error issued before mutations. -/
theorem C4_load_order_dispatch (mapping : Mapping) (item : String) :
    ((pyStartswith item "nodes." || pyStartswith item "relationships."
        || pyStartswith item "derived_relationships.") = false →
      runLoadOrder mapping [item] = ([], none))
    ∧ (pyStartswith item "nodes." = true →
        mapping.nodes.find? (fun p => p.1 = afterFirstDot item) = none →
        runLoadOrder mapping [item] = ([], some RunResult.crashed)) := by
  constructor
  · intro h
    have h1 : pyStartswith item "nodes." = false := by
      cases hx : pyStartswith item "nodes." <;> simp [hx] at h ⊢
    have h2 : pyStartswith item "relationships." = false := by
      cases hx : pyStartswith item "relationships." <;> simp [hx] at h ⊢
    have h3 : pyStartswith item "derived_relationships." = false := by
      cases hx : pyStartswith item "derived_relationships." <;> simp [hx] at h ⊢
    simp [runLoadOrder, loadItemAction, h1, h2, h3]
  · intro h1 hk
    simp [runLoadOrder, loadItemAction, h1, hk]

/-- Witness for the amended C4: with an empty mapping, `"frobnicate"` is
skipped while `"nodes.zz"` crashes the load loop. -/
theorem C4_load_order_dispatch_witness :
    runLoadOrder {} ["frobnicate"] = ([], none)
    ∧ runLoadOrder {} ["nodes.zz"] = ([], some RunResult.crashed) :=
  ⟨(C4_load_order_dispatch {} "frobnicate").1 (by decide),
   (C4_load_order_dispatch {} "nodes.zz").2 (by decide) (by decide)⟩

/-! ## Checksum preflight abort (claim C7) -/

theorem rowcountFail_of_flag (args : Args) (env : Env) (src : Source)
    (h : args.verify_rowcounts = false) : rowcountFail args env src = false := by
  unfold rowcountFail
  rw [h]

theorem linkidScanFail_of_flag (args : Args) (env : Env) (src : Source)
    (h : args.strict_missing_linkid = false) : linkidScanFail args env src = false := by
  simp [linkidScanFail, h]

theorem preflightLoop_checksum (args : Args) (env : Env)
    (hrc : args.verify_rowcounts = false) (hst : args.strict_missing_linkid = false) :
    ∀ srcs : List Source,
      (∃ src ∈ srcs, checksumFail args env src = true) →
      preflightLoop args env srcs = some 3 := by
  intro srcs
  induction srcs with
  | nil => rintro ⟨src, hm, _⟩; cases hm
  | cons s rest ih =>
    rintro ⟨src, hm, hcf⟩
    unfold preflightLoop preflightSource
    cases hs : checksumFail args env s
    · rw [rowcountFail_of_flag args env s hrc, linkidScanFail_of_flag args env s hst]
      simp only [Bool.false_eq_true, if_false]
      rcases List.mem_cons.mp hm with he | he
      · rw [he] at hcf
        rw [hcf] at hs
        simp at hs
      · exact ih ⟨src, he, hcf⟩
    · simp

/-- Claim C7: with checksum verification enabled and some declared source
whose manifest-declared checksum differs from the recomputed one (and the
other preflight checks not tripping first), the run exits with the
distinct stable code 3 and the only database statements it has issued are
the schema (constraint/index) statements — no node, edge or promotion
mutation has run. -/
theorem C7_checksum_abort (args : Args) (mapping : Mapping)
    (manifest : List ManifestEntry) (env : Env)
    (hpw : args.password.isSome = true)
    (hcs : args.verify_checksums = true)
    (hrc : args.verify_rowcounts = false)
    (hst : args.strict_missing_linkid = false)
    (hbc : (build_constraint_cypher mapping.runtime_indexes).isSome = true)
    (hmm : ∃ src ∈ annotate_sources mapping.sources manifest, ∃ c,
        src.checksum_sha256 = some c
          ∧ env.checksumOf (to_url args.base_url src.path) ≠ c) :
    (mainRun args mapping manifest env).2 = RunResult.exited 3
    ∧ ∀ a ∈ (mainRun args mapping manifest env).1, ∃ t, a = Action.schemaStmt t := by
  obtain ⟨stmts, hs⟩ := Option.isSome_iff_exists.mp hbc
  obtain ⟨src, hmem, c, hc, hne⟩ := hmm
  have hfail : checksumFail args env src = true := by
    unfold checksumFail
    rw [hcs, hc]
    simpa using hne
  have hpf : preflight args env (annotate_sources mapping.sources manifest) = some 3 := by
    unfold preflight
    rw [hcs]
    simp only [Bool.true_or, if_true]
    exact preflightLoop_checksum args env hrc hst _ ⟨src, hmem, hfail⟩
  have hnn : args.password.isNone = false := by
    cases hp : args.password
    · rw [hp] at hpw; simp at hpw
    · simp [hp]
  unfold mainRun
  simp only [hnn, hs, hpf, Bool.false_eq_true, if_false]
  refine ⟨trivial, ?_⟩
  intro a ha
  rcases List.mem_map.mp ha with ⟨t, _, rfl⟩
  exact ⟨t, rfl⟩

/-- Witness for C7: one declared source, the manifest declares `abc123`, the
environment recomputes `def456`, and the run exits with code 3 before any
load action. -/
theorem C7_checksum_abort_witness :
    (mainRun { verify_checksums := true }
        { sources := [{ name := "semlink", path := "semlink.csv" }],
          load_order := ["nodes.synset"] }
        [{ name := "semlink.csv", sha256 := some "abc123" }] fixedEnv).2
      = RunResult.exited 3
    ∧ ∀ a ∈ (mainRun { verify_checksums := true }
        { sources := [{ name := "semlink", path := "semlink.csv" }],
          load_order := ["nodes.synset"] }
        [{ name := "semlink.csv", sha256 := some "abc123" }] fixedEnv).1,
        ∃ t, a = Action.schemaStmt t :=
  C7_checksum_abort { verify_checksums := true }
    { sources := [{ name := "semlink", path := "semlink.csv" }],
      load_order := ["nodes.synset"] }
    [{ name := "semlink.csv", sha256 := some "abc123" }] fixedEnv
    (by decide) (by decide) (by decide) (by decide) (by decide)
    ⟨{ name := "semlink", path := "semlink.csv", checksum_sha256 := some "abc123" },
      by decide, "abc123", by decide, by decide⟩

/-! ## Promotion additivity and idempotence (claim C6) -/

theorem mergeDerived_nodes (rtype : String) (now : Val) (st : GraphState) (e : Edge) :
    (mergeDerived rtype now st e).nodes = st.nodes := by
  unfold mergeDerived
  split <;> rfl

theorem mergeDerived_edges (rtype : String) (now : Val) (st : GraphState) (e : Edge) :
    ∃ tl, (mergeDerived rtype now st e).edges = st.edges ++ tl
      ∧ ∀ x ∈ tl, plookup x.props "linkid" = none := by
  unfold mergeDerived
  split
  · exact ⟨[], by simp, by simp⟩
  · refine ⟨[{ src := e.src, dst := e.dst, type := rtype, props := derivedProps e now }],
      rfl, ?_⟩
    intro x hx
    rw [List.mem_singleton.mp hx]
    simp [derivedProps, plookup, List.find?]

theorem foldl_mergeDerived_pres (rtype : String) (now : Val) :
    ∀ (ms : List Edge) (st : GraphState),
      (ms.foldl (mergeDerived rtype now) st).nodes = st.nodes
      ∧ ∃ tl, (ms.foldl (mergeDerived rtype now) st).edges = st.edges ++ tl
          ∧ ∀ x ∈ tl, plookup x.props "linkid" = none := by
  intro ms
  induction ms with
  | nil => intro st; exact ⟨rfl, [], by simp, by simp⟩
  | cons e rest ih =>
    intro st
    obtain ⟨hn, tl2, he2, hp2⟩ := ih (mergeDerived rtype now st e)
    obtain ⟨tl1, he1, hp1⟩ := mergeDerived_edges rtype now st e
    refine ⟨?_, tl1 ++ tl2, ?_, ?_⟩
    · rw [List.foldl_cons, hn, mergeDerived_nodes]
    · rw [List.foldl_cons, he2, he1, List.append_assoc]
    · intro x hx
      rcases List.mem_append.mp hx with h | h
      · exact hp1 x h
      · exact hp2 x h

theorem promoteEntry_pres (now : Val) (s : GraphState) (m : PromoteEntry) :
    (promoteEntry now s m).nodes = s.nodes
    ∧ ∃ tl, (promoteEntry now s m).edges = s.edges ++ tl
        ∧ ∀ x ∈ tl, plookup x.props "linkid" = none :=
  foldl_mergeDerived_pres m.type now (genericMatches s m.linkid) s

theorem promote_pres (now : Val) (entries : List PromoteEntry) :
    ∀ s : GraphState,
      (promote_named_edges now entries s).nodes = s.nodes
      ∧ ∃ tl, (promote_named_edges now entries s).edges = s.edges ++ tl
          ∧ ∀ x ∈ tl, plookup x.props "linkid" = none := by
  induction entries with
  | nil => intro s; exact ⟨rfl, [], by simp [promote_named_edges], by simp⟩
  | cons m rest ih =>
    intro s
    obtain ⟨hn1, tl1, he1, hp1⟩ := promoteEntry_pres now s m
    obtain ⟨hn2, tl2, he2, hp2⟩ := ih (promoteEntry now s m)
    refine ⟨?_, tl1 ++ tl2, ?_, ?_⟩
    · show (promote_named_edges now rest (promoteEntry now s m)).nodes = s.nodes
      rw [hn2, hn1]
    · show (promote_named_edges now rest (promoteEntry now s m)).edges = s.edges ++ (tl1 ++ tl2)
      rw [he2, he1, List.append_assoc]
    · intro x hx
      rcases List.mem_append.mp hx with h | h
      · exact hp1 x h
      · exact hp2 x h

theorem genericMatches_stable (s s' : GraphState) (lid : Int)
    (hn : s'.nodes = s.nodes)
    (he : ∃ tl, s'.edges = s.edges ++ tl ∧ ∀ x ∈ tl, plookup x.props "linkid" = none) :
    genericMatches s' lid = genericMatches s lid := by
  obtain ⟨tl, hedge, hp⟩ := he
  unfold genericMatches
  rw [hedge, hn, List.filter_append]
  have hnil : tl.filter (fun e =>
      e.type = "SYNSET" && plookup e.props "linkid" = some (Val.vint lid)
        && s.nodes.any (fun n => n.id = e.src && n.label = "synset")
        && s.nodes.any (fun n => n.id = e.dst && n.label = "synset")) = [] := by
    rw [List.filter_eq_nil_iff]
    intro x hx
    simp [hp x hx]
  rw [hnil, List.append_nil]

theorem derivedAny_mono (st st' : GraphState) (e : Edge) (rtype : String)
    (h : ∃ tl, st'.edges = st.edges ++ tl) (hd : derivedAny st e rtype = true) :
    derivedAny st' e rtype = true := by
  obtain ⟨tl, he⟩ := h
  unfold derivedAny at hd ⊢
  rw [he, List.any_append, hd]
  rfl

theorem foldl_mergeDerived_covers (rtype : String) (now : Val) :
    ∀ (ms : List Edge) (st : GraphState) (e : Edge), e ∈ ms →
      derivedAny (ms.foldl (mergeDerived rtype now) st) e rtype = true := by
  intro ms
  induction ms with
  | nil => intro st e he; cases he
  | cons e0 rest ih =>
    intro st e he
    rcases List.mem_cons.mp he with he0 | hmem
    · subst he0
      have h1 : derivedAny (mergeDerived rtype now st e) e rtype = true := by
        unfold mergeDerived
        cases hd : derivedAny st e rtype
        · simp only [Bool.false_eq_true, if_false]
          unfold derivedAny
          rw [List.any_append]
          simp
        · simp [hd]
      obtain ⟨_, tl, htl, _⟩ := foldl_mergeDerived_pres rtype now rest (mergeDerived rtype now st e)
      exact derivedAny_mono _ _ e rtype ⟨tl, htl⟩ h1
    · exact ih (mergeDerived rtype now st e0) e hmem

theorem foldl_mergeDerived_noop (rtype : String) (now : Val) :
    ∀ (ms : List Edge) (st : GraphState),
      (∀ e ∈ ms, derivedAny st e rtype = true) →
      ms.foldl (mergeDerived rtype now) st = st := by
  intro ms
  induction ms with
  | nil => intro st _; rfl
  | cons e0 rest ih =>
    intro st h
    have h0 : mergeDerived rtype now st e0 = st := by
      unfold mergeDerived
      rw [h e0 (List.mem_cons_self e0 rest)]
      rfl
    rw [List.foldl_cons, h0]
    exact ih st (fun e he => h e (List.mem_cons_of_mem _ he))

theorem promote_covers (now : Val) :
    ∀ (entries : List PromoteEntry) (s : GraphState) (m : PromoteEntry), m ∈ entries →
      ∀ e ∈ genericMatches s m.linkid,
        derivedAny (promote_named_edges now entries s) e m.type = true := by
  intro entries
  induction entries with
  | nil => intro s m hm; cases hm
  | cons m0 rest ih =>
    intro s m hm e he
    have hpe := promoteEntry_pres now s m0
    rcases List.mem_cons.mp hm with hm0 | hmem
    · subst hm0
      have h1 : derivedAny (promoteEntry now s m) e m.type = true :=
        foldl_mergeDerived_covers m.type now (genericMatches s m.linkid) s e he
      obtain ⟨_, tl, htl, _⟩ := promote_pres now rest (promoteEntry now s m)
      exact derivedAny_mono _ _ e m.type ⟨tl, htl⟩ h1
    · have hstab : genericMatches (promoteEntry now s m0) m.linkid = genericMatches s m.linkid :=
        genericMatches_stable s (promoteEntry now s m0) m.linkid hpe.1 hpe.2
      have he' : e ∈ genericMatches (promoteEntry now s m0) m.linkid := by
        rw [hstab]; exact he
      exact ih (promoteEntry now s m0) m hmem e he'

theorem promote_noop (now2 : Val) :
    ∀ (entries : List PromoteEntry) (st : GraphState),
      (∀ m ∈ entries, ∀ e ∈ genericMatches st m.linkid, derivedAny st e m.type = true) →
      promote_named_edges now2 entries st = st := by
  intro entries
  induction entries with
  | nil => intro st _; rfl
  | cons m0 rest ih =>
    intro st h
    have h0 : promoteEntry now2 st m0 = st :=
      foldl_mergeDerived_noop m0.type now2 (genericMatches st m0.linkid) st
        (h m0 (List.mem_cons_self m0 rest))
    show promote_named_edges now2 rest (promoteEntry now2 st m0) = st
    rw [h0]
    exact ih st (fun m hm => h m (List.mem_cons_of_mem _ hm))

theorem mergeDerived_count (rtype' : String) (now : Val) (st : GraphState) (e' : Edge)
    (src dst : Nat) (t : String) :
    relCount (mergeDerived rtype' now st e') src dst t = relCount st src dst t
    ∨ (relCount st src dst t = 0
        ∧ relCount (mergeDerived rtype' now st e') src dst t = 1) := by
  unfold mergeDerived
  cases hd : derivedAny st e' rtype'
  · simp only [Bool.false_eq_true, if_false]
    by_cases hb : e'.src = src ∧ e'.dst = dst ∧ rtype' = t
    · obtain ⟨h1, h2, h3⟩ := hb
      subst h1
      subst h2
      subst h3
      right
      have hz : List.countP
          (fun e => e.src = e'.src && e.dst = e'.dst && e.type = rtype') st.edges = 0 := by
        rw [List.countP_eq_zero]
        intro x hx hpx
        unfold derivedAny at hd
        have : st.edges.any
            (fun x => x.src = e'.src && x.dst = e'.dst && x.type = rtype') = true :=
          List.any_eq_true.mpr ⟨x, hx, hpx⟩
        rw [this] at hd
        simp at hd
      refine ⟨hz, ?_⟩
      unfold relCount
      rw [List.countP_append, hz]
      simp [List.countP_cons]
    · left
      unfold relCount
      rw [List.countP_append]
      have hE : List.countP (fun e : Edge => e.src = src && e.dst = dst && e.type = t)
          ([{ src := e'.src, dst := e'.dst, type := rtype', props := derivedProps e' now }]
            : List Edge) = 0 := by
        simp only [List.countP_cons, List.countP_nil, Nat.zero_add]
        rw [if_neg]
        intro hc
        rw [Bool.and_eq_true, Bool.and_eq_true] at hc
        exact hb ⟨by simpa using hc.1.1, by simpa using hc.1.2, by simpa using hc.2⟩
      rw [hE]
      omega
  · simp

theorem foldl_mergeDerived_count_le (rtype' : String) (now : Val) (src dst : Nat)
    (t : String) :
    ∀ (ms : List Edge) (st : GraphState),
      relCount st src dst t ≤ 1 →
      relCount (ms.foldl (mergeDerived rtype' now) st) src dst t ≤ 1 := by
  intro ms
  induction ms with
  | nil => intro st h; exact h
  | cons e rest ih =>
    intro st h
    refine ih (mergeDerived rtype' now st e) ?_
    rcases mergeDerived_count rtype' now st e src dst t with hc | ⟨_, hc⟩ <;> omega

theorem promote_count_le (now : Val) (src dst : Nat) (t : String) :
    ∀ (entries : List PromoteEntry) (s : GraphState),
      relCount s src dst t ≤ 1 →
      relCount (promote_named_edges now entries s) src dst t ≤ 1 := by
  intro entries
  induction entries with
  | nil => intro s h; exact h
  | cons m0 rest ih =>
    intro s h
    exact ih (promoteEntry now s m0)
      (foldl_mergeDerived_count_le m0.type now src dst t (genericMatches s m0.linkid) s h)

theorem relCount_pos_of_derivedAny (st : GraphState) (g : Edge) (t : String)
    (h : derivedAny st g t = true) : 1 ≤ relCount st g.src g.dst t := by
  unfold derivedAny at h
  obtain ⟨x, hx, hp⟩ := List.any_eq_true.mp h
  unfold relCount
  exact List.countP_pos_iff.mpr ⟨x, hx, hp⟩

/-- Claim C6: derived-edge promotion is additive and idempotent.  For a
configured `(linkid → type)` entry and a generic `SYNSET` edge matched by
it, when no edge of the mapped type exists yet between the endpoints:
after promotion the generic edge still exists, exactly one edge of the
mapped type exists between the same endpoints, nothing is deleted (the
edge list only grows), and re-running promotion on the resulting state —
with any timestamp — changes nothing. -/
theorem C6_promotion_additive_idempotent (now now2 : Val) (entries : List PromoteEntry)
    (s : GraphState) (m : PromoteEntry) (g : Edge)
    (hm : m ∈ entries)
    (hg : g ∈ genericMatches s m.linkid)
    (h0 : relCount s g.src g.dst m.type = 0) :
    g ∈ (promote_named_edges now entries s).edges
    ∧ relCount (promote_named_edges now entries s) g.src g.dst m.type = 1
    ∧ (∃ tl, (promote_named_edges now entries s).edges = s.edges ++ tl)
    ∧ promote_named_edges now2 entries (promote_named_edges now entries s)
        = promote_named_edges now entries s := by
  obtain ⟨hn, tl, htl, hptl⟩ := promote_pres now entries s
  have hgmem : g ∈ s.edges := (List.mem_filter.mp hg).1
  have hcov := promote_covers now entries s m hm g hg
  have hle : relCount (promote_named_edges now entries s) g.src g.dst m.type ≤ 1 :=
    promote_count_le now g.src g.dst m.type entries s (by omega)
  have hge := relCount_pos_of_derivedAny _ g m.type hcov
  refine ⟨?_, by omega, ⟨tl, htl⟩, ?_⟩
  · rw [htl]
    exact List.mem_append_left _ hgmem
  · apply promote_noop
    intro m' hm' e he
    have hstab : genericMatches (promote_named_edges now entries s) m'.linkid
        = genericMatches s m'.linkid :=
      genericMatches_stable s _ m'.linkid hn ⟨tl, htl, hptl⟩
    rw [hstab] at he
    exact promote_covers now entries s m' hm' e he

/-- Witness for C6 on a two-node graph with one generic `SYNSET` edge
carrying `linkid` 30, promoted to `hypernym`. -/
theorem C6_promotion_additive_idempotent_witness :
    relCount
        (promote_named_edges (Val.vstr "t") [{ linkid := 30, type := "hypernym" }]
          { nodes := [{ id := 0, label := "synset", props := [("synsetid", Val.vint 1)] },
                      { id := 1, label := "synset", props := [("synsetid", Val.vint 2)] }],
            edges := [{ src := 0, dst := 1, type := "SYNSET",
                        props := [("linkid", Val.vint 30)] }],
            nextId := 2 })
        0 1 "hypernym" = 1
    ∧ promote_named_edges (Val.vstr "u") [{ linkid := 30, type := "hypernym" }]
        (promote_named_edges (Val.vstr "t") [{ linkid := 30, type := "hypernym" }]
          { nodes := [{ id := 0, label := "synset", props := [("synsetid", Val.vint 1)] },
                      { id := 1, label := "synset", props := [("synsetid", Val.vint 2)] }],
            edges := [{ src := 0, dst := 1, type := "SYNSET",
                        props := [("linkid", Val.vint 30)] }],
            nextId := 2 })
      = promote_named_edges (Val.vstr "t") [{ linkid := 30, type := "hypernym" }]
          { nodes := [{ id := 0, label := "synset", props := [("synsetid", Val.vint 1)] },
                      { id := 1, label := "synset", props := [("synsetid", Val.vint 2)] }],
            edges := [{ src := 0, dst := 1, type := "SYNSET",
                        props := [("linkid", Val.vint 30)] }],
            nextId := 2 } :=
  ⟨(C6_promotion_additive_idempotent (Val.vstr "t") (Val.vstr "u")
      [{ linkid := 30, type := "hypernym" }]
      { nodes := [{ id := 0, label := "synset", props := [("synsetid", Val.vint 1)] },
                  { id := 1, label := "synset", props := [("synsetid", Val.vint 2)] }],
        edges := [{ src := 0, dst := 1, type := "SYNSET",
                    props := [("linkid", Val.vint 30)] }],
        nextId := 2 }
      { linkid := 30, type := "hypernym" }
      { src := 0, dst := 1, type := "SYNSET", props := [("linkid", Val.vint 30)] }
      (by decide) (by decide) (by decide)).2.1,
   (C6_promotion_additive_idempotent (Val.vstr "t") (Val.vstr "u")
      [{ linkid := 30, type := "hypernym" }]
      { nodes := [{ id := 0, label := "synset", props := [("synsetid", Val.vint 1)] },
                  { id := 1, label := "synset", props := [("synsetid", Val.vint 2)] }],
        edges := [{ src := 0, dst := 1, type := "SYNSET",
                    props := [("linkid", Val.vint 30)] }],
        nextId := 2 }
      { linkid := 30, type := "hypernym" }
      { src := 0, dst := 1, type := "SYNSET", props := [("linkid", Val.vint 30)] }
      (by decide) (by decide) (by decide)).2.2.2⟩

/-! ## Discriminator merge uniqueness (claim C1) -/

theorem relMergeProps_some (spec : RelSpec) (row : Row) (n : Int)
    (hL : hasLinkid spec = true) (hv : mergeLinkid row = some n) :
    relMergeProps spec row = some [("linkid", Val.vint n)] := by
  unfold relMergeProps
  rw [hL, hv]
  rfl

theorem applyRelRow_single (params : RunParams) (now : Val) (spec : RelSpec)
    (s : GraphState) (row : Row) (a b : Node)
    (hg : relGuard spec row = true)
    (hf : endpointMatch s.nodes spec.fromSpec row = [a])
    (ht : endpointMatch s.nodes spec.toSpec row = [b]) :
    applyRelRow params now spec s row = mergeRelPair params now spec row s a b := by
  unfold applyRelRow
  rw [hg, hf, ht]
  simp

theorem mergeRelPair_create (params : RunParams) (now : Val) (spec : RelSpec)
    (row : Row) (st : GraphState) (a b : Node) (mp : List (String × Val))
    (hmp : relMergeProps spec row = some mp)
    (hany : st.edges.any (fun e =>
        edgeMatches e (dirResolve spec a b).1.id (dirResolve spec a b).2.id spec.type mp)
      = false) :
    mergeRelPair params now spec row st a b =
      { st with edges := st.edges ++
          [{ src := (dirResolve spec a b).1.id, dst := (dirResolve spec a b).2.id,
             type := spec.type,
             props := propsSetAll mp (relSetters params now spec row) }] } := by
  unfold mergeRelPair
  rw [hmp]
  simp only [hany, Bool.false_eq_true, if_false]

theorem mergeRelPair_update (params : RunParams) (now : Val) (spec : RelSpec)
    (row : Row) (st : GraphState) (a b : Node) (mp : List (String × Val))
    (hmp : relMergeProps spec row = some mp)
    (hany : st.edges.any (fun e =>
        edgeMatches e (dirResolve spec a b).1.id (dirResolve spec a b).2.id spec.type mp)
      = true) :
    mergeRelPair params now spec row st a b =
      { st with edges := st.edges.map (fun e =>
          if edgeMatches e (dirResolve spec a b).1.id (dirResolve spec a b).2.id spec.type mp
          then { e with props := propsSetAll e.props (relSetters params now spec row) }
          else e) } := by
  unfold mergeRelPair
  rw [hmp]
  simp only [hany, if_true]

theorem no_match_of_count_zero (st : GraphState) (src dst : Nat) (t : String)
    (mp : List (String × Val)) (h0 : relCount st src dst t = 0) :
    st.edges.any (fun e => edgeMatches e src dst t mp) = false := by
  cases hv : st.edges.any (fun e => edgeMatches e src dst t mp)
  · rfl
  · obtain ⟨x, hx, hp⟩ := List.any_eq_true.mp hv
    unfold edgeMatches at hp
    rw [Bool.and_eq_true] at hp
    have : 0 < relCount st src dst t := List.countP_pos_iff.mpr ⟨x, hx, hp.1⟩
    omega

theorem countP_map_fields (p : Edge → Bool) (f : Edge → Edge) (l : List Edge)
    (hf : ∀ e, (f e).src = e.src ∧ (f e).dst = e.dst ∧ (f e).type = e.type)
    (hp : ∀ e₁ e₂ : Edge, e₁.src = e₂.src → e₁.dst = e₂.dst → e₁.type = e₂.type →
        p e₁ = p e₂) :
    List.countP p (l.map f) = List.countP p l := by
  rw [List.countP_map]
  refine List.countP_congr (fun e _ => ?_)
  obtain ⟨h1, h2, h3⟩ := hf e
  rw [Function.comp_apply, hp (f e) e h1 h2 h3]

theorem isInfix_toList_append_mid (x : List Char) (pre mid post : String)
    (h : x <:+: mid.toList) : x <:+: (pre ++ mid ++ post).toList := by
  obtain ⟨u, v, huv⟩ := h
  refine ⟨pre.toList ++ u, v ++ post.toList, ?_⟩
  have htl : ∀ a b : String, (a ++ b).toList = a.toList ++ b.toList :=
    fun a b => String.data_append a b
  rw [htl, htl, ← huv]
  simp [List.append_assoc]

theorem linkid_in_merge_pattern (spec : RelSpec) (hL : hasLinkid spec = true) :
    (∃ pre, build_rel_load_body spec
      = pre ++ "\nMERGE " ++ relPattern spec ++ "\nSET " ++ relSettersStr spec)
    ∧ "linkid:".toList <:+: (relPattern spec).toList := by
  constructor
  · exact ⟨relWhereStr spec ++ "\nMATCH " ++ matchExprStr "from" spec.fromSpec ++ ", "
      ++ matchExprStr "to" spec.toSpec, rfl⟩
  · have hstr : mergeRelPropsStr spec
        = " \x7b linkid: toInteger(replace(trim(row.`linkid`), " ++ q "\\uFEFF" ++ ","
            ++ q "" ++ ")) \x7d" := by
      unfold mergeRelPropsStr
      rw [hL]
      simp
    have hsub : "linkid:".toList <:+: (mergeRelPropsStr spec).toList := by
      rw [hstr]
      decide
    unfold relPattern
    cases ho : isOutDir spec
    · simp only [Bool.false_eq_true, if_false]
      exact isInfix_toList_append_mid _ ("(x_to)-[r:`" ++ spec.type ++ "`")
        (mergeRelPropsStr spec) "]->(x_from)" hsub
    · simp only [if_true]
      exact isInfix_toList_append_mid _ ("(x_from)-[r:`" ++ spec.type ++ "`")
        (mergeRelPropsStr spec) "]->(x_to)" hsub

/-- Claim C1: for a relationship spec whose properties include the `linkid`
discriminator, with unique endpoint matches: two rows with the same
endpoints and distinct discriminators `n1 ≠ n2` produce two edges (one per
discriminator value), a repeated row with the same endpoints and the same
discriminator leaves exactly one edge, and the generated text places the
discriminator inside the `MERGE` pattern itself, before the `SET` clause. -/
theorem C1_discriminator_merge (params : RunParams) (now : Val) (spec : RelSpec)
    (s : GraphState) (a b : Node) (r1 r2 r3 : Row) (n1 n2 : Int)
    (hL : hasLinkid spec = true)
    (hg1 : relGuard spec r1 = true) (hg2 : relGuard spec r2 = true)
    (hg3 : relGuard spec r3 = true)
    (hf1 : endpointMatch s.nodes spec.fromSpec r1 = [a])
    (ht1 : endpointMatch s.nodes spec.toSpec r1 = [b])
    (hf2 : endpointMatch s.nodes spec.fromSpec r2 = [a])
    (ht2 : endpointMatch s.nodes spec.toSpec r2 = [b])
    (hf3 : endpointMatch s.nodes spec.fromSpec r3 = [a])
    (ht3 : endpointMatch s.nodes spec.toSpec r3 = [b])
    (hv1 : mergeLinkid r1 = some n1) (hv2 : mergeLinkid r2 = some n2)
    (hv3 : mergeLinkid r3 = some n1)
    (hne : n1 ≠ n2)
    (hp1 : plookup (propsSetAll [("linkid", Val.vint n1)] (relSetters params now spec r1))
        "linkid" = some (Val.vint n1))
    (hp2 : plookup (propsSetAll [("linkid", Val.vint n2)] (relSetters params now spec r2))
        "linkid" = some (Val.vint n2))
    (h0 : relCount s (dirResolve spec a b).1.id (dirResolve spec a b).2.id spec.type = 0) :
    relCount (applyRelRow params now spec (applyRelRow params now spec s r1) r2)
        (dirResolve spec a b).1.id (dirResolve spec a b).2.id spec.type = 2
    ∧ relCountLinkid (applyRelRow params now spec (applyRelRow params now spec s r1) r2)
        (dirResolve spec a b).1.id (dirResolve spec a b).2.id spec.type n1 = 1
    ∧ relCountLinkid (applyRelRow params now spec (applyRelRow params now spec s r1) r2)
        (dirResolve spec a b).1.id (dirResolve spec a b).2.id spec.type n2 = 1
    ∧ relCount (applyRelRow params now spec (applyRelRow params now spec s r1) r3)
        (dirResolve spec a b).1.id (dirResolve spec a b).2.id spec.type = 1
    ∧ (∃ pre, build_rel_load_body spec
        = pre ++ "\nMERGE " ++ relPattern spec ++ "\nSET " ++ relSettersStr spec)
    ∧ "linkid:".toList <:+: (relPattern spec).toList := by
  have hzero : ∀ x ∈ s.edges,
      ¬((x.src = (dirResolve spec a b).1.id && x.dst = (dirResolve spec a b).2.id && x.type = spec.type) = true) :=
    List.countP_eq_zero.mp h0
  have h00 : List.countP
      (fun e => e.src = (dirResolve spec a b).1.id && e.dst = (dirResolve spec a b).2.id && e.type = spec.type) s.edges = 0 := h0
  have hs1eq : applyRelRow params now spec s r1
      = { s with edges := s.edges ++ [({ src := (dirResolve spec a b).1.id, dst := (dirResolve spec a b).2.id, type := spec.type, props := propsSetAll [("linkid", Val.vint n1)] (relSetters params now spec r1) } : Edge)] } := by
    rw [applyRelRow_single params now spec s r1 a b hg1 hf1 ht1]
    exact mergeRelPair_create params now spec r1 s a b _
      (relMergeProps_some spec r1 n1 hL hv1)
      (no_match_of_count_zero s _ _ _ _ h0)
  have hmE1n2 : edgeMatches ({ src := (dirResolve spec a b).1.id, dst := (dirResolve spec a b).2.id, type := spec.type, props := propsSetAll [("linkid", Val.vint n1)] (relSetters params now spec r1) } : Edge)
      (dirResolve spec a b).1.id (dirResolve spec a b).2.id spec.type [("linkid", Val.vint n2)] = false := by
    unfold edgeMatches
    simp [hp1, hne]
  have hmE1n1 : edgeMatches ({ src := (dirResolve spec a b).1.id, dst := (dirResolve spec a b).2.id, type := spec.type, props := propsSetAll [("linkid", Val.vint n1)] (relSetters params now spec r1) } : Edge)
      (dirResolve spec a b).1.id (dirResolve spec a b).2.id spec.type [("linkid", Val.vint n1)] = true := by
    unfold edgeMatches
    simp [hp1]
  have hany2 : (s.edges ++ [({ src := (dirResolve spec a b).1.id, dst := (dirResolve spec a b).2.id, type := spec.type, props := propsSetAll [("linkid", Val.vint n1)] (relSetters params now spec r1) } : Edge)]).any
      (fun e => edgeMatches e (dirResolve spec a b).1.id (dirResolve spec a b).2.id spec.type [("linkid", Val.vint n2)]) = false := by
    rw [List.any_append, no_match_of_count_zero s _ _ _ _ h0]
    simp [hmE1n2]
  have happ2 := applyRelRow_single params now spec
    ({ s with edges := s.edges ++ [({ src := (dirResolve spec a b).1.id, dst := (dirResolve spec a b).2.id, type := spec.type, props := propsSetAll [("linkid", Val.vint n1)] (relSetters params now spec r1) } : Edge)] }) r2 a b hg2 hf2 ht2
  have hs2eq : applyRelRow params now spec (applyRelRow params now spec s r1) r2
      = { s with edges := (s.edges ++ [({ src := (dirResolve spec a b).1.id, dst := (dirResolve spec a b).2.id, type := spec.type, props := propsSetAll [("linkid", Val.vint n1)] (relSetters params now spec r1) } : Edge)]) ++ [({ src := (dirResolve spec a b).1.id, dst := (dirResolve spec a b).2.id, type := spec.type, props := propsSetAll [("linkid", Val.vint n2)] (relSetters params now spec r2) } : Edge)] } := by
    rw [hs1eq, happ2]
    exact mergeRelPair_create params now spec r2 _ a b _
      (relMergeProps_some spec r2 n2 hL hv2) hany2
  have hany3 : (s.edges ++ [({ src := (dirResolve spec a b).1.id, dst := (dirResolve spec a b).2.id, type := spec.type, props := propsSetAll [("linkid", Val.vint n1)] (relSetters params now spec r1) } : Edge)]).any
      (fun e => edgeMatches e (dirResolve spec a b).1.id (dirResolve spec a b).2.id spec.type [("linkid", Val.vint n1)]) = true := by
    rw [List.any_append]
    simp [hmE1n1]
  have happ3 := applyRelRow_single params now spec
    ({ s with edges := s.edges ++ [({ src := (dirResolve spec a b).1.id, dst := (dirResolve spec a b).2.id, type := spec.type, props := propsSetAll [("linkid", Val.vint n1)] (relSetters params now spec r1) } : Edge)] }) r3 a b hg3 hf3 ht3
  have hs3eq : applyRelRow params now spec (applyRelRow params now spec s r1) r3
      = { s with edges := (s.edges ++ [({ src := (dirResolve spec a b).1.id, dst := (dirResolve spec a b).2.id, type := spec.type, props := propsSetAll [("linkid", Val.vint n1)] (relSetters params now spec r1) } : Edge)]).map (fun e => if edgeMatches e (dirResolve spec a b).1.id (dirResolve spec a b).2.id spec.type [("linkid", Val.vint n1)] then { e with props := propsSetAll e.props (relSetters params now spec r3) } else e) } := by
    rw [hs1eq, happ3]
    exact mergeRelPair_update params now spec r3 _ a b _
      (relMergeProps_some spec r3 n1 hL hv3) hany3
  obtain ⟨hpre, hinf⟩ := linkid_in_merge_pattern spec hL
  refine ⟨?_, ?_, ?_, ?_, hpre, hinf⟩
  · rw [hs2eq]
    unfold relCount
    show List.countP _ ((s.edges ++ [({ src := (dirResolve spec a b).1.id, dst := (dirResolve spec a b).2.id, type := spec.type, props := propsSetAll [("linkid", Val.vint n1)] (relSetters params now spec r1) } : Edge)]) ++ [({ src := (dirResolve spec a b).1.id, dst := (dirResolve spec a b).2.id, type := spec.type, props := propsSetAll [("linkid", Val.vint n2)] (relSetters params now spec r2) } : Edge)]) = 2
    rw [List.countP_append, List.countP_append, h00]
    simp [List.countP_cons]
  · rw [hs2eq]
    unfold relCountLinkid
    show List.countP _ ((s.edges ++ [({ src := (dirResolve spec a b).1.id, dst := (dirResolve spec a b).2.id, type := spec.type, props := propsSetAll [("linkid", Val.vint n1)] (relSetters params now spec r1) } : Edge)]) ++ [({ src := (dirResolve spec a b).1.id, dst := (dirResolve spec a b).2.id, type := spec.type, props := propsSetAll [("linkid", Val.vint n2)] (relSetters params now spec r2) } : Edge)]) = 1
    rw [List.countP_append, List.countP_append]
    have hz : List.countP (fun e => e.src = (dirResolve spec a b).1.id && e.dst = (dirResolve spec a b).2.id && e.type = spec.type
        && plookup e.props "linkid" = some (Val.vint n1)) s.edges = 0 := by
      rw [List.countP_eq_zero]
      intro x hx hpx
      rw [Bool.and_eq_true] at hpx
      exact hzero x hx hpx.1
    rw [hz]
    have hne2 : ¬n2 = n1 := fun h => hne h.symm
    simp [List.countP_cons, hp1, hp2, hne2]
  · rw [hs2eq]
    unfold relCountLinkid
    show List.countP _ ((s.edges ++ [({ src := (dirResolve spec a b).1.id, dst := (dirResolve spec a b).2.id, type := spec.type, props := propsSetAll [("linkid", Val.vint n1)] (relSetters params now spec r1) } : Edge)]) ++ [({ src := (dirResolve spec a b).1.id, dst := (dirResolve spec a b).2.id, type := spec.type, props := propsSetAll [("linkid", Val.vint n2)] (relSetters params now spec r2) } : Edge)]) = 1
    rw [List.countP_append, List.countP_append]
    have hz : List.countP (fun e => e.src = (dirResolve spec a b).1.id && e.dst = (dirResolve spec a b).2.id && e.type = spec.type
        && plookup e.props "linkid" = some (Val.vint n2)) s.edges = 0 := by
      rw [List.countP_eq_zero]
      intro x hx hpx
      rw [Bool.and_eq_true] at hpx
      exact hzero x hx hpx.1
    rw [hz]
    simp [List.countP_cons, hp1, hp2, hne]
  · rw [hs3eq]
    have hfld : ∀ e : Edge, ((fun e => if edgeMatches e (dirResolve spec a b).1.id (dirResolve spec a b).2.id spec.type [("linkid", Val.vint n1)] then { e with props := propsSetAll e.props (relSetters params now spec r3) } else e) e).src = e.src ∧ ((fun e => if edgeMatches e (dirResolve spec a b).1.id (dirResolve spec a b).2.id spec.type [("linkid", Val.vint n1)] then { e with props := propsSetAll e.props (relSetters params now spec r3) } else e) e).dst = e.dst
        ∧ ((fun e => if edgeMatches e (dirResolve spec a b).1.id (dirResolve spec a b).2.id spec.type [("linkid", Val.vint n1)] then { e with props := propsSetAll e.props (relSetters params now spec r3) } else e) e).type = e.type := by
      intro e
      by_cases hc : edgeMatches e (dirResolve spec a b).1.id (dirResolve spec a b).2.id spec.type [("linkid", Val.vint n1)] = true
      · simp [hc]
      · simp [hc]
    have hdep : ∀ e₁ e₂ : Edge, e₁.src = e₂.src → e₁.dst = e₂.dst → e₁.type = e₂.type →
        (fun e => e.src = (dirResolve spec a b).1.id && e.dst = (dirResolve spec a b).2.id && e.type = spec.type) e₁
          = (fun e => e.src = (dirResolve spec a b).1.id && e.dst = (dirResolve spec a b).2.id && e.type = spec.type) e₂ := by
      intro e₁ e₂ h1 h2 h3
      simp [h1, h2, h3]
    unfold relCount
    show List.countP _ ((s.edges ++ [({ src := (dirResolve spec a b).1.id, dst := (dirResolve spec a b).2.id, type := spec.type, props := propsSetAll [("linkid", Val.vint n1)] (relSetters params now spec r1) } : Edge)]).map (fun e => if edgeMatches e (dirResolve spec a b).1.id (dirResolve spec a b).2.id spec.type [("linkid", Val.vint n1)] then { e with props := propsSetAll e.props (relSetters params now spec r3) } else e)) = 1
    rw [countP_map_fields _ _ _ hfld hdep]
    rw [List.countP_append, h00]
    simp [List.countP_cons]

/-- Witness for C1 on the `semlinkref`-style relationship spec: rows with
`linkid` 10 and 20 between the same two synsets yield two edges, and
repeating the `linkid`-10 row yields a single edge. -/
theorem C1_discriminator_merge_witness :
    relCount
        (applyRelRow { source_system := "wordnet", ingest_batch := "b" } (Val.vstr "t") ({ source := "semlinkref", type := "SYNSET", direction := "OUT", fromSpec := { label := "synset", match_on := ["synset1id:synsetid"] }, toSpec := { label := "synset", match_on := ["synset2id:synsetid"] }, props := [("linkid", { column := "linkid", type := "int" })] } : RelSpec)
          (applyRelRow { source_system := "wordnet", ingest_batch := "b" } (Val.vstr "t") ({ source := "semlinkref", type := "SYNSET", direction := "OUT", fromSpec := { label := "synset", match_on := ["synset1id:synsetid"] }, toSpec := { label := "synset", match_on := ["synset2id:synsetid"] }, props := [("linkid", { column := "linkid", type := "int" })] } : RelSpec)
            ({ nodes := [{ id := 0, label := "synset", props := [("synsetid", Val.vint 1)] }, { id := 1, label := "synset", props := [("synsetid", Val.vint 2)] }], edges := [], nextId := 2 } : GraphState) [("synset1id", "1"), ("synset2id", "2"), ("linkid", "10")]) [("synset1id", "1"), ("synset2id", "2"), ("linkid", "20")])
        (dirResolve ({ source := "semlinkref", type := "SYNSET", direction := "OUT", fromSpec := { label := "synset", match_on := ["synset1id:synsetid"] }, toSpec := { label := "synset", match_on := ["synset2id:synsetid"] }, props := [("linkid", { column := "linkid", type := "int" })] } : RelSpec) { id := 0, label := "synset", props := [("synsetid", Val.vint 1)] } { id := 1, label := "synset", props := [("synsetid", Val.vint 2)] }).1.id
        (dirResolve ({ source := "semlinkref", type := "SYNSET", direction := "OUT", fromSpec := { label := "synset", match_on := ["synset1id:synsetid"] }, toSpec := { label := "synset", match_on := ["synset2id:synsetid"] }, props := [("linkid", { column := "linkid", type := "int" })] } : RelSpec) { id := 0, label := "synset", props := [("synsetid", Val.vint 1)] } { id := 1, label := "synset", props := [("synsetid", Val.vint 2)] }).2.id "SYNSET" = 2
    ∧ relCount
        (applyRelRow { source_system := "wordnet", ingest_batch := "b" } (Val.vstr "t") ({ source := "semlinkref", type := "SYNSET", direction := "OUT", fromSpec := { label := "synset", match_on := ["synset1id:synsetid"] }, toSpec := { label := "synset", match_on := ["synset2id:synsetid"] }, props := [("linkid", { column := "linkid", type := "int" })] } : RelSpec)
          (applyRelRow { source_system := "wordnet", ingest_batch := "b" } (Val.vstr "t") ({ source := "semlinkref", type := "SYNSET", direction := "OUT", fromSpec := { label := "synset", match_on := ["synset1id:synsetid"] }, toSpec := { label := "synset", match_on := ["synset2id:synsetid"] }, props := [("linkid", { column := "linkid", type := "int" })] } : RelSpec)
            ({ nodes := [{ id := 0, label := "synset", props := [("synsetid", Val.vint 1)] }, { id := 1, label := "synset", props := [("synsetid", Val.vint 2)] }], edges := [], nextId := 2 } : GraphState) [("synset1id", "1"), ("synset2id", "2"), ("linkid", "10")]) [("synset1id", "1"), ("synset2id", "2"), ("linkid", "10")])
        (dirResolve ({ source := "semlinkref", type := "SYNSET", direction := "OUT", fromSpec := { label := "synset", match_on := ["synset1id:synsetid"] }, toSpec := { label := "synset", match_on := ["synset2id:synsetid"] }, props := [("linkid", { column := "linkid", type := "int" })] } : RelSpec) { id := 0, label := "synset", props := [("synsetid", Val.vint 1)] } { id := 1, label := "synset", props := [("synsetid", Val.vint 2)] }).1.id
        (dirResolve ({ source := "semlinkref", type := "SYNSET", direction := "OUT", fromSpec := { label := "synset", match_on := ["synset1id:synsetid"] }, toSpec := { label := "synset", match_on := ["synset2id:synsetid"] }, props := [("linkid", { column := "linkid", type := "int" })] } : RelSpec) { id := 0, label := "synset", props := [("synsetid", Val.vint 1)] } { id := 1, label := "synset", props := [("synsetid", Val.vint 2)] }).2.id "SYNSET" = 1 :=
  ⟨(C1_discriminator_merge { source_system := "wordnet", ingest_batch := "b" } (Val.vstr "t")
      ({ source := "semlinkref", type := "SYNSET", direction := "OUT", fromSpec := { label := "synset", match_on := ["synset1id:synsetid"] }, toSpec := { label := "synset", match_on := ["synset2id:synsetid"] }, props := [("linkid", { column := "linkid", type := "int" })] } : RelSpec)
      ({ nodes := [{ id := 0, label := "synset", props := [("synsetid", Val.vint 1)] }, { id := 1, label := "synset", props := [("synsetid", Val.vint 2)] }], edges := [], nextId := 2 } : GraphState)
      { id := 0, label := "synset", props := [("synsetid", Val.vint 1)] } { id := 1, label := "synset", props := [("synsetid", Val.vint 2)] }
      [("synset1id", "1"), ("synset2id", "2"), ("linkid", "10")] [("synset1id", "1"), ("synset2id", "2"), ("linkid", "20")] [("synset1id", "1"), ("synset2id", "2"), ("linkid", "10")] 10 20
      (by decide) (by decide) (by decide) (by decide) (by decide) (by decide)
      (by decide) (by decide) (by decide) (by decide) (by decide) (by decide)
      (by decide) (by decide) (by decide) (by decide) (by decide)).1,
   (C1_discriminator_merge { source_system := "wordnet", ingest_batch := "b" } (Val.vstr "t")
      ({ source := "semlinkref", type := "SYNSET", direction := "OUT", fromSpec := { label := "synset", match_on := ["synset1id:synsetid"] }, toSpec := { label := "synset", match_on := ["synset2id:synsetid"] }, props := [("linkid", { column := "linkid", type := "int" })] } : RelSpec)
      ({ nodes := [{ id := 0, label := "synset", props := [("synsetid", Val.vint 1)] }, { id := 1, label := "synset", props := [("synsetid", Val.vint 2)] }], edges := [], nextId := 2 } : GraphState)
      { id := 0, label := "synset", props := [("synsetid", Val.vint 1)] } { id := 1, label := "synset", props := [("synsetid", Val.vint 2)] }
      [("synset1id", "1"), ("synset2id", "2"), ("linkid", "10")] [("synset1id", "1"), ("synset2id", "2"), ("linkid", "20")] [("synset1id", "1"), ("synset2id", "2"), ("linkid", "10")] 10 20
      (by decide) (by decide) (by decide) (by decide) (by decide) (by decide)
      (by decide) (by decide) (by decide) (by decide) (by decide) (by decide)
      (by decide) (by decide) (by decide) (by decide) (by decide)).2.2.2.1⟩

end WordnetAura
